import Mathlib

/-!
Verification of the gtfsutils filtering engine (src/gtfsutils/filter.py and the
ID-casting loader fragment of src/gtfsutils/__init__.py), as a shallow embedding.

A GTFS feed is a dictionary from table name to a pandas DataFrame.  We embed it
as a record: the required tables (`agency`, `stops`, `routes`, `trips`,
`stop_times`) are plain row lists, the optional tables that the filter code
guards with `if key in df_dict` (`shapes`, `calendar`, `calendar_dates`,
`frequencies`, `transfers`) are `Option` row lists, and every other table
(pathways, levels, fare rules, ...) lives in the `other` association list,
whose rows are opaque.  Rows carry exactly the columns the filter code reads;
nullable columns (`parent_station`, `trips.shape_id`) are `Option String`,
matching pandas NaN.  Dates are embedded as `Nat` in yyyymmdd form: the source
parses date strings with format %Y%m%d and compares `datetime` values, and for
valid dates numeric yyyymmdd order coincides with chronological order.

Python mutates `df_dict` in place and raises on errors; we embed each filter
entry point as a function returning `GTFSStore × Option String`: the first
component is the store as mutated up to the point where the call returned or
raised, the second is `none` on normal completion and `some msg` when the
source raises (KeyError / TypeError / ValueError), carrying the error kind.
Entry points that cannot raise (`filter_by_stop_ids`, `filter_by_service_ids`)
are plain `GTFSStore → ... → GTFSStore` functions.
-/

/-- A row of agency.txt (only `agency_id` is read by the filter code). -/
structure AgencyRow where
  agency_id : String
deriving DecidableEq

/-- A row of stops.txt.  `parent_station` is nullable (pandas NaN ↦ `none`);
`lon`/`lat` model the `stop_lon`/`stop_lat` coordinates used by the spatial
filters (coordinates embedded as integers; the geometry predicate reads them
only through `pointInBox`). -/
structure StopRow where
  stop_id : String
  parent_station : Option String
  lon : Int
  lat : Int
deriving DecidableEq

/-- A row of routes.txt. -/
structure RouteRow where
  route_id : String
  agency_id : String
deriving DecidableEq

/-- A row of trips.txt.  `shape_id` is nullable. -/
structure TripRow where
  trip_id : String
  route_id : String
  service_id : String
  shape_id : Option String
deriving DecidableEq

/-- A row of stop_times.txt (only `trip_id` and `stop_id` are read). -/
structure StopTimeRow where
  trip_id : String
  stop_id : String
deriving DecidableEq

/-- A row of shapes.txt: a single shape point. -/
structure ShapeRow where
  shape_id : String
  lon : Int
  lat : Int
  seq : Nat
deriving DecidableEq

/-- A row of calendar.txt; dates are yyyymmdd numbers. -/
structure CalendarRow where
  service_id : String
  monday : Int
  tuesday : Int
  wednesday : Int
  thursday : Int
  friday : Int
  saturday : Int
  sunday : Int
  start_date : Nat
  end_date : Nat
deriving DecidableEq

/-- A row of calendar_dates.txt; the date is a yyyymmdd number. -/
structure CalendarDateRow where
  service_id : String
  date : Nat
deriving DecidableEq

/-- A row of frequencies.txt (only `trip_id` is read). -/
structure FrequencyRow where
  trip_id : String
deriving DecidableEq

/-- A row of transfers.txt (only the two endpoint ids are read). -/
structure TransferRow where
  from_stop_id : String
  to_stop_id : String
deriving DecidableEq

/-- The GTFS table store (the `df_dict` of the source).  Tables never touched
by the filter code are kept as opaque row lists in `other`. -/
structure GTFSStore where
  agency : List AgencyRow
  stops : List StopRow
  routes : List RouteRow
  trips : List TripRow
  stop_times : List StopTimeRow
  shapes : Option (List ShapeRow)
  calendar : Option (List CalendarRow)
  calendar_dates : Option (List CalendarDateRow)
  frequencies : Option (List FrequencyRow)
  transfers : Option (List TransferRow)
  other : List (String × List (List String))
deriving DecidableEq

/-- pandas `Series.isin(ids)` membership test for one value. -/
def isin (x : String) (ids : List String) : Bool :=
  decide (x ∈ ids)

/-- `isin` for a nullable column value: NaN (`none`) matches nothing. -/
def optIsin (o : Option String) (ids : List String) : Bool :=
  match o with
  | some x => decide (x ∈ ids)
  | none => false

/-- `isin` of a plain string against a value list that may contain NaN
(`shapes["shape_id"].isin(trips["shape_id"].values)`). -/
def isinOptVals (x : String) (vals : List (Option String)) : Bool :=
  decide (some x ∈ vals)

/-- `np.unique`, modelled up to element order (the source consumes its result
only through `isin` membership tests and, for dummy-row synthesis, one row per
distinct element, so only membership and distinctness matter). -/
def npUnique (l : List String) : List String :=
  l.dedup

/-- src/gtfsutils/filter.py lines 13-25: restrict `stops` to the given ids
together with the parent stations of the rows matching those ids. -/
def filter_stops_including_stations_by_stop_ids
    (s : GTFSStore) (stop_ids : List String) : GTFSStore :=
  let parent_stations :=
    (s.stops.filter (fun r => isin r.stop_id stop_ids)).filterMap
      (fun r => r.parent_station)
  let ids := npUnique (stop_ids ++ parent_stations)
  { s with stops := s.stops.filter (fun r => isin r.stop_id ids) }

/-- The axis-aligned rectangle produced by `shapely.geometry.box`. -/
structure Box where
  minLon : Int
  minLat : Int
  maxLon : Int
  maxLat : Int
deriving DecidableEq

/-- The `filter_geometry` argument of the spatial entry points: either a raw
bounds list or an already-built geometry. -/
inductive FilterGeometry where
  | boundsList : List Int → FilterGeometry
  | geom : Box → FilterGeometry
deriving DecidableEq

/-- The shared prologue of the three spatial entry points (filter.py lines
28-36, 70-78, 142-150): a 4-element bounds list becomes a box, any other list
length raises ValueError; a geometry is passed through. -/
def normalizeGeometry : FilterGeometry → Except String Box
  | FilterGeometry.boundsList [a, b, c, d] => Except.ok ⟨a, b, c, d⟩
  | FilterGeometry.boundsList _ => Except.error "ValueError: Wrong dimension of bounds"
  | FilterGeometry.geom b => Except.ok b

/-- Point-in-box test: the geometry-library primitive (`intersects` of a point
against a box, boundary inclusive), consumed as a capability per the spec. -/
def pointInBox (b : Box) (lon lat : Int) : Bool :=
  decide (b.minLon ≤ lon) && decide (lon ≤ b.maxLon) &&
    decide (b.minLat ≤ lat) && decide (lat ≤ b.maxLat)

/-- src/gtfsutils/filter.py lines 84-139: the by-stop-ids cascading filter.
Each `let` mirrors one masked assignment of the source, in source order;
`trip_ids` is captured from the already-filtered stop_times (line 97) and
reused for frequencies (line 131), and transfers keep a row only when both
endpoints are in the given `stop_ids` (lines 136-138). -/
def filter_by_stop_ids (s : GTFSStore) (stop_ids : List String) : GTFSStore :=
  let stops' := s.stops.filter (fun r => isin r.stop_id stop_ids)
  let stop_times' := s.stop_times.filter (fun r => isin r.stop_id stop_ids)
  let trip_ids := stop_times'.map (fun r => r.trip_id)
  let trips' := s.trips.filter (fun t => isin t.trip_id trip_ids)
  let route_ids := trips'.map (fun t => t.route_id)
  let routes' := s.routes.filter (fun r => isin r.route_id route_ids)
  let agency_ids := routes'.map (fun r => r.agency_id)
  let agency' := s.agency.filter (fun a => isin a.agency_id agency_ids)
  let shape_vals := trips'.map (fun t => t.shape_id)
  let shapes' := s.shapes.map (fun sh => sh.filter (fun r => isinOptVals r.shape_id shape_vals))
  let service_ids := trips'.map (fun t => t.service_id)
  let calendar' := s.calendar.map (fun c => c.filter (fun r => isin r.service_id service_ids))
  let calendar_dates' :=
    s.calendar_dates.map (fun c => c.filter (fun r => isin r.service_id service_ids))
  let frequencies' := s.frequencies.map (fun fr => fr.filter (fun f => isin f.trip_id trip_ids))
  let transfers' :=
    s.transfers.map (fun tr => tr.filter
      (fun t => isin t.from_stop_id stop_ids && isin t.to_stop_id stop_ids))
  { s with stops := stops', stop_times := stop_times', trips := trips',
           routes := routes', agency := agency', shapes := shapes',
           calendar := calendar', calendar_dates := calendar_dates',
           frequencies := frequencies', transfers := transfers' }

/-- src/gtfsutils/filter.py lines 28-44: spatially seed stop ids (stops whose
point intersects the geometry), then delegate to `filter_by_stop_ids`. -/
def spatial_filter_by_stops (s : GTFSStore) (fg : FilterGeometry) : GTFSStore × Option String :=
  match normalizeGeometry fg with
  | Except.error e => (s, some e)
  | Except.ok box =>
    let stop_ids := (s.stops.filter (fun r => pointInBox box r.lon r.lat)).map
      (fun r => r.stop_id)
    (filter_by_stop_ids s stop_ids, none)

/-- src/gtfsutils/filter.py lines 47-67: spatially seed stop ids, add the
parent stations of the matched rows, then add all stops whose parent is in
that combined set.  This is a fixed two-pass computation, not a loop. -/
def get_stop_ids_including_stations_within_geometry
    (s : GTFSStore) (box : Box) : List String :=
  let masked := s.stops.filter (fun r => pointInBox box r.lon r.lat)
  let stop_ids := masked.map (fun r => r.stop_id)
  let parent_stations := masked.filterMap (fun r => r.parent_station)
  let combined := npUnique (stop_ids ++ parent_stations)
  let additional :=
    (s.stops.filter (fun r => optIsin r.parent_station combined)).map (fun r => r.stop_id)
  npUnique (combined ++ additional)

/-- The station-closure computation of
`get_stop_ids_including_stations_within_geometry` (filter.py lines 51-67),
with the spatially-seeded mask generalized to an arbitrary seed ID set: the
masked rows become the rows whose `stop_id` lies in the seed. -/
def stationClosure (stops : List StopRow) (seed : List String) : List String :=
  let seedRows := stops.filter (fun r => isin r.stop_id seed)
  let parent_stations := seedRows.filterMap (fun r => r.parent_station)
  let combined := npUnique (seed ++ parent_stations)
  let additional :=
    (stops.filter (fun r => optIsin r.parent_station combined)).map (fun r => r.stop_id)
  npUnique (combined ++ additional)

/-- src/gtfsutils/filter.py lines 70-81: seed stop ids with station closure
from the geometry, then delegate to `filter_by_stop_ids`. -/
def spatial_filter_by_stations (s : GTFSStore) (fg : FilterGeometry) : GTFSStore × Option String :=
  match normalizeGeometry fg with
  | Except.error e => (s, some e)
  | Except.ok box =>
    (filter_by_stop_ids s (get_stop_ids_including_stations_within_geometry s box), none)

/-- src/gtfsutils/filter.py lines 166-219: the by-shape-ids cascading filter.
`df_dict["shapes"]` is read unconditionally at line 171, so a store without a
shapes table raises KeyError before any mutation.  The stops step (line 195)
goes through `filter_stops_including_stations_by_stop_ids`, while the
transfers step (lines 216-218) tests endpoints against the pre-closure
`stop_ids` seed taken from the filtered stop_times (line 194). -/
def filter_by_shape_ids (s : GTFSStore) (shape_ids : List String) : GTFSStore × Option String :=
  match s.shapes with
  | none => (s, some "KeyError: shapes")
  | some sh =>
    let shapes' := sh.filter (fun r => isin r.shape_id shape_ids)
    let trips' := s.trips.filter (fun t => optIsin t.shape_id shape_ids)
    let route_ids := trips'.map (fun t => t.route_id)
    let routes' := s.routes.filter (fun r => isin r.route_id route_ids)
    let agency_ids := routes'.map (fun r => r.agency_id)
    let agency' := s.agency.filter (fun a => isin a.agency_id agency_ids)
    let trip_ids := trips'.map (fun t => t.trip_id)
    let stop_times' := s.stop_times.filter (fun r => isin r.trip_id trip_ids)
    let stop_ids := stop_times'.map (fun r => r.stop_id)
    let s1 := { s with shapes := some shapes', trips := trips', routes := routes',
                       agency := agency', stop_times := stop_times' }
    let s2 := filter_stops_including_stations_by_stop_ids s1 stop_ids
    let service_ids := trips'.map (fun t => t.service_id)
    let calendar' := s2.calendar.map (fun c => c.filter (fun r => isin r.service_id service_ids))
    let calendar_dates' :=
      s2.calendar_dates.map (fun c => c.filter (fun r => isin r.service_id service_ids))
    let frequencies' := s2.frequencies.map (fun fr => fr.filter (fun f => isin f.trip_id trip_ids))
    let transfers' :=
      s2.transfers.map (fun tr => tr.filter
        (fun t => isin t.from_stop_id stop_ids && isin t.to_stop_id stop_ids))
    ({ s2 with calendar := calendar', calendar_dates := calendar_dates',
               frequencies := frequencies', transfers := transfers' }, none)

/-- The candidate shape ids of `load_shapes` + the within/intersects mask of
`spatial_filter_by_shapes` (filter.py lines 152-162, __init__.py lines
205-216): group shape points by `shape_id`, drop groups with fewer than two
points, and keep ids whose polyline satisfies the operation against the box.
The geometry-library primitives are consumed as capabilities and modelled on
the point set of the polyline: `within` a convex box holds iff every vertex is
inside it; `intersects` is modelled as some vertex inside the box.  The
`sort_values("shape_pt_sequence")` ordering step does not affect either
point-set predicate and is therefore not represented. -/
def shapeLineIds (sh : List ShapeRow) (box : Box) (operation : String) : List String :=
  ((sh.map (fun r => r.shape_id)).dedup).filter (fun sid =>
    let pts := sh.filter (fun r => r.shape_id == sid)
    decide (1 < pts.length) &&
      (if operation = "within" then pts.all (fun p => pointInBox box p.lon p.lat)
       else pts.any (fun p => pointInBox box p.lon p.lat)))

/-- src/gtfsutils/filter.py lines 142-163: normalize the geometry, load shapes
(KeyError-style ValueError if the shapes table is absent, raised by
`load_shapes`), reject unknown operations, then delegate the surviving shape
ids to `filter_by_shape_ids`. -/
def spatial_filter_by_shapes
    (s : GTFSStore) (fg : FilterGeometry) (operation : String) : GTFSStore × Option String :=
  match normalizeGeometry fg with
  | Except.error e => (s, some e)
  | Except.ok box =>
    match s.shapes with
    | none => (s, some "ValueError: shapes.txt not found in GTFS")
    | some sh =>
      if operation = "within" ∨ operation = "intersects" then
        filter_by_shape_ids s (shapeLineIds sh box operation)
      else
        (s, some "ValueError: Operation not supported")

/-- src/gtfsutils/filter.py lines 222-276: the by-agency-ids cascade.  Line
246 calls `filter_stops_including_stations_by_stop_ids(stops_ids)` without the
`df_dict` argument, so the call raises TypeError at the stops step, after the
agency, routes, trips and stop_times tables have already been mutated in
place; the steps after line 246 never run. -/
def filter_by_agency_ids (s : GTFSStore) (agency_ids : List String) : GTFSStore × Option String :=
  let agency' := s.agency.filter (fun a => isin a.agency_id agency_ids)
  let routes' := s.routes.filter (fun r => isin r.agency_id agency_ids)
  let route_ids := routes'.map (fun r => r.route_id)
  let trips' := s.trips.filter (fun t => isin t.route_id route_ids)
  let trip_ids := trips'.map (fun t => t.trip_id)
  let stop_times' := s.stop_times.filter (fun r => isin r.trip_id trip_ids)
  ({ s with agency := agency', routes := routes', trips := trips',
            stop_times := stop_times' },
   some "TypeError: filter_stops_including_stations_by_stop_ids missing 1 required positional argument")

/-- src/gtfsutils/filter.py lines 309-352: the by-service-ids cascade.  Note
that it does not touch calendar or calendar_dates; transfers again test
endpoints against the pre-closure `stop_ids` seed (line 323). -/
def filter_by_service_ids (s : GTFSStore) (service_ids : List String) : GTFSStore :=
  let trips' := s.trips.filter (fun t => isin t.service_id service_ids)
  let trip_ids := trips'.map (fun t => t.trip_id)
  let stop_times' := s.stop_times.filter (fun r => isin r.trip_id trip_ids)
  let stop_ids := stop_times'.map (fun r => r.stop_id)
  let s1 := { s with trips := trips', stop_times := stop_times' }
  let s2 := filter_stops_including_stations_by_stop_ids s1 stop_ids
  let route_ids := trips'.map (fun t => t.route_id)
  let routes' := s2.routes.filter (fun r => isin r.route_id route_ids)
  let agency_ids := routes'.map (fun r => r.agency_id)
  let agency' := s2.agency.filter (fun a => isin a.agency_id agency_ids)
  let shape_vals := trips'.map (fun t => t.shape_id)
  let shapes' := s2.shapes.map (fun sh => sh.filter (fun r => isinOptVals r.shape_id shape_vals))
  let transfers' :=
    s2.transfers.map (fun tr => tr.filter
      (fun t => isin t.from_stop_id stop_ids && isin t.to_stop_id stop_ids))
  let frequencies' := s2.frequencies.map (fun fr => fr.filter (fun f => isin f.trip_id trip_ids))
  { s2 with routes := routes', agency := agency', shapes := shapes',
            transfers := transfers', frequencies := frequencies' }

/-- The calendar_dates date mask of filter.py lines 286-291: keep rows whose
date lies in the inclusive query interval. -/
def dateMaskCd (cd : List CalendarDateRow) (start_date end_date : Nat) : List CalendarDateRow :=
  cd.filter (fun r => decide (r.date ≤ end_date) && decide (start_date ≤ r.date))

/-- The calendar date mask of filter.py lines 295-298: keep rows whose
validity interval overlaps the query interval. -/
def dateMaskCal (cal : List CalendarRow) (start_date end_date : Nat) : List CalendarRow :=
  cal.filter (fun r => decide (r.start_date ≤ end_date) && decide (start_date ≤ r.end_date))

/-- The dummy calendar row synthesized at filter.py lines 375-389: all seven
weekday flags zero, start and end date equal to the given date. -/
def mkDummy (sid : String) (d : Nat) : CalendarRow :=
  ⟨sid, 0, 0, 0, 0, 0, 0, 0, d, d⟩

/-- The loop body of `fill_missing_service_ids_in_calendar` (filter.py lines
372-392): for each missing service id, take the first calendar_dates row with
that id (`.iloc[0]`, IndexError when there is none) and prepend a dummy
calendar row built from its date. -/
def fillLoop (cd : List CalendarDateRow) (acc : List CalendarRow) :
    List String → Except String (List CalendarRow)
  | [] => Except.ok acc
  | sid :: rest =>
    match (cd.filter (fun r => r.service_id == sid)).head? with
    | none => Except.error "IndexError: single positional indexer is out-of-bounds"
    | some row => fillLoop cd (mkDummy sid row.date :: acc) rest

/-- The distinct service ids present in `cdSids` but not in `calSids`
(filter.py lines 365-371). -/
def missingServiceIds (cdSids calSids : List String) : List String :=
  npUnique (cdSids.filter (fun x => !(isin x calSids)))

/-- The dummy row `fill_missing_service_ids_in_calendar` builds for one
missing service id: its date is the date of the first calendar_dates row
carrying that id.  (The `none` branch is unreachable whenever the id occurs in
`cd`, which the call site guarantees.) -/
def dummyFor (cd : List CalendarDateRow) (sid : String) : CalendarRow :=
  match (cd.filter (fun r => r.service_id == sid)).head? with
  | some row => mkDummy sid row.date
  | none => mkDummy sid 0

/-- src/gtfsutils/filter.py lines 355-392. -/
def fill_missing_service_ids_in_calendar
    (cd : List CalendarDateRow) (cal : List CalendarRow)
    (cdSids calSids : List String) : Except String (List CalendarRow) :=
  fillLoop cd cal (missingServiceIds cdSids calSids)

/-- src/gtfsutils/filter.py lines 279-306: the by-date-range entry point.
`df_dict["calendar_dates"]` (line 287) and `df_dict["calendar"]` (line 296)
are read unconditionally, so either table being absent raises KeyError — for
calendar after calendar_dates has already been masked in place.  On success
the union of the masked service-id sets (computed before the dummy fill, line
299) seeds `filter_by_service_ids`. -/
def filter_by_calendar (s : GTFSStore) (start_date end_date : Nat) : GTFSStore × Option String :=
  match s.calendar_dates with
  | none => (s, some "KeyError: calendar_dates")
  | some cd =>
    let cd' := dateMaskCd cd start_date end_date
    let s1 := { s with calendar_dates := some cd' }
    let cdSids := cd'.map (fun r => r.service_id)
    match s.calendar with
    | none => (s1, some "KeyError: calendar")
    | some cal =>
      let cal' := dateMaskCal cal start_date end_date
      let s2 := { s1 with calendar := some cal' }
      let calSids := cal'.map (fun r => r.service_id)
      match fill_missing_service_ids_in_calendar cd' cal' cdSids calSids with
      | Except.error e => (s2, some e)
      | Except.ok newCal =>
        let s3 := { s2 with calendar := some newCal }
        let svc := npUnique (cdSids ++ calSids)
        (filter_by_service_ids s3 svc, none)

/-!
Loader model for the ID-casting fragment of src/gtfsutils/__init__.py.

`load_gtfs` reads each table with `pd.read_csv` (dtypes inferred per column),
then runs `cast_gtfs_enum_columns` and `cast_gtfs_ids` inside a
`try/except Exception` that logs the error and keeps the table as loaded.  We
model a raw CSV column as its header plus cell strings and the dtype inference
relevant to ID columns: an all-numeric column is inferred `int64` (losing
leading zeros of its cells), anything else stays `str`.  The enum cast of
`cast_gtfs_enum_columns` touches no ID column and is not represented.
-/

/-- The pandas dtype of a loaded column, restricted to the two cases the ID
claim distinguishes. -/
inductive Dtype where
  | int64 : Dtype
  | str : Dtype
deriving DecidableEq

/-- A raw CSV column: header plus cell texts. -/
structure RawColumn where
  name : String
  cells : List String
deriving DecidableEq

/-- A column after `pd.read_csv`: header, inferred dtype, and the cell values
as re-rendered text. -/
structure LoadedColumn where
  name : String
  dtype : Dtype
  cells : List String
deriving DecidableEq

/-- Numeric value of an all-digit cell. -/
def digitsToNat (s : String) : Nat :=
  s.toList.foldl (fun acc c => 10 * acc + (c.toNat - 48)) 0

/-- Whether a cell looks like a nonnegative integer. -/
def isDigits (s : String) : Bool :=
  decide (s ≠ "") && s.toList.all (fun c => c.isDigit)

/-- pandas dtype inference for one column: all cells numeric ⇒ `int64` with
the cells re-rendered as numbers (leading zeros lost), otherwise `str`. -/
def inferColumn (c : RawColumn) : LoadedColumn :=
  if decide (c.cells ≠ []) && c.cells.all isDigits then
    ⟨c.name, Dtype.int64, c.cells.map (fun s => toString (digitsToNat s))⟩
  else
    ⟨c.name, Dtype.str, c.cells⟩

/-- `pd.read_csv` on one table. -/
def read_csv (cols : List RawColumn) : List LoadedColumn :=
  cols.map inferColumn

/-- src/gtfsutils/__init__.py lines 101-124: the documented GTFS ID columns,
verbatim (including the duplicated `level_id` and `to_stop_id` entries). -/
def GTFS_IDS : List String :=
  ["agency_id", "service_id", "level_id", "stop_id", "parent_station",
   "zone_id", "level_id", "route_id", "fare_id", "origin_id",
   "destination_id", "contains_id", "shape_id", "trip_id", "block_id",
   "from_stop_id", "to_stop_id", "from_route_id", "to_stop_id",
   "pathway_id", "record_id", "record_sub_id"]

/-- The attribute access `GTFS_IDS.items()` of src/gtfsutils/__init__.py line
140: `GTFS_IDS` is a Python list and lists have no `items` method, so the
lookup raises AttributeError unconditionally. -/
def pyListItems : List String → Except String (List (String × String)) :=
  fun _ => Except.error "AttributeError: list object has no attribute items"

/-- src/gtfsutils/__init__.py lines 139-142 (`cast_gtfs_ids`): iterates
`GTFS_IDS.items()`, which raises AttributeError before any column is touched;
the per-column cast body is therefore unreachable and the function never
returns normally on the actual `GTFS_IDS` value. -/
def cast_gtfs_ids (tbl : List LoadedColumn) : Except String (List LoadedColumn) :=
  match pyListItems GTFS_IDS with
  | Except.error e => Except.error e
  | Except.ok _ => Except.ok tbl

/-- One iteration of the load loop of `load_gtfs` (src/gtfsutils/__init__.py
lines 151-160) for a non-stops table: read the CSV, then run
`cast_gtfs_ids`; the surrounding `try/except Exception` catches its
AttributeError, logs it, and leaves the table as read. -/
def load_gtfs_table (cols : List RawColumn) : List LoadedColumn :=
  let tbl := read_csv cols
  match cast_gtfs_ids tbl with
  | Except.error _ => tbl
  | Except.ok t => t

/-!
Invariants.  `RefClosedCore` is referential closure over every foreign-key
column the filter code manages except the self-referential
`stops.parent_station`; `FullRefClosed` adds that column and is the no-orphan
invariant the spec states.  Absent optional tables contribute no rows via
`Option.getD []`.
-/

/-- Service-id universe of a store: ids defined by the calendar rows present
plus the calendar_dates rows present (GTFS defines `service_id` by the union
of the two tables). -/
def serviceUniverse (s : GTFSStore) : List String :=
  (s.calendar.getD []).map (fun r => r.service_id) ++
    (s.calendar_dates.getD []).map (fun r => r.service_id)

/-- A nullable shape reference is valid against the given shape-id list. -/
def shapeRefOk (o : Option String) (ids : List String) : Bool :=
  match o with
  | some sid => decide (sid ∈ ids)
  | none => true

/-- routes.agency_id refers to a present agency row. -/
abbrev routesClosed (s : GTFSStore) : Prop :=
  ∀ r ∈ s.routes, r.agency_id ∈ s.agency.map (fun a => a.agency_id)

/-- trips.route_id refers to a present routes row. -/
abbrev tripsRouteClosed (s : GTFSStore) : Prop :=
  ∀ t ∈ s.trips, t.route_id ∈ s.routes.map (fun r => r.route_id)

/-- trips.service_id refers to a present calendar or calendar_dates row. -/
abbrev tripsServiceClosed (s : GTFSStore) : Prop :=
  ∀ t ∈ s.trips, t.service_id ∈ serviceUniverse s

/-- trips.shape_id, when non-null, refers to a present shapes row. -/
abbrev tripsShapeClosed (s : GTFSStore) : Prop :=
  ∀ t ∈ s.trips, shapeRefOk t.shape_id ((s.shapes.getD []).map (fun r => r.shape_id)) = true

/-- stop_times.trip_id refers to a present trips row. -/
abbrev stopTimesTripClosed (s : GTFSStore) : Prop :=
  ∀ x ∈ s.stop_times, x.trip_id ∈ s.trips.map (fun t => t.trip_id)

/-- stop_times.stop_id refers to a present stops row. -/
abbrev stopTimesStopClosed (s : GTFSStore) : Prop :=
  ∀ x ∈ s.stop_times, x.stop_id ∈ s.stops.map (fun r => r.stop_id)

/-- transfers.from_stop_id and transfers.to_stop_id refer to present stops. -/
abbrev transfersClosed (s : GTFSStore) : Prop :=
  ∀ t ∈ s.transfers.getD [],
    t.from_stop_id ∈ s.stops.map (fun r => r.stop_id) ∧
      t.to_stop_id ∈ s.stops.map (fun r => r.stop_id)

/-- frequencies.trip_id refers to a present trips row. -/
abbrev frequenciesClosed (s : GTFSStore) : Prop :=
  ∀ f ∈ s.frequencies.getD [], f.trip_id ∈ s.trips.map (fun t => t.trip_id)

/-- stops.parent_station, when non-null, refers to a present stops row. -/
abbrev parentClosed (s : GTFSStore) : Prop :=
  ∀ r ∈ s.stops, shapeRefOk r.parent_station (s.stops.map (fun x => x.stop_id)) = true

/-- Referential closure over every filter-managed foreign key except the
self-referential stops.parent_station. -/
abbrev RefClosedCore (s : GTFSStore) : Prop :=
  routesClosed s ∧ tripsRouteClosed s ∧ tripsServiceClosed s ∧ tripsShapeClosed s ∧
    stopTimesTripClosed s ∧ stopTimesStopClosed s ∧ transfersClosed s ∧ frequenciesClosed s

/-- Full referential closure, including stops.parent_station: the no-orphan
invariant as the spec states it. -/
abbrev FullRefClosed (s : GTFSStore) : Prop :=
  RefClosedCore s ∧ parentClosed s

/-- Two lists regarded as sets are equal. -/
def sameElems (l1 l2 : List String) : Prop :=
  ∀ x, x ∈ l1 ↔ x ∈ l2

/-- At most two levels of station nesting: no stop that some stop names as its
parent station itself carries a parent station. -/
abbrev TwoLevel (stops : List StopRow) : Prop :=
  ∀ r ∈ stops, ∀ q ∈ stops, r.parent_station = some q.stop_id → q.parent_station = none

/-- Per-table row counts of `a` bounded by those of `b` (absent tables count
zero rows). -/
abbrev tablesLe (a b : GTFSStore) : Prop :=
  a.agency.length ≤ b.agency.length ∧
    a.stops.length ≤ b.stops.length ∧
    a.routes.length ≤ b.routes.length ∧
    a.trips.length ≤ b.trips.length ∧
    a.stop_times.length ≤ b.stop_times.length ∧
    (a.shapes.getD []).length ≤ (b.shapes.getD []).length ∧
    (a.calendar.getD []).length ≤ (b.calendar.getD []).length ∧
    (a.calendar_dates.getD []).length ≤ (b.calendar_dates.getD []).length ∧
    (a.frequencies.getD []).length ≤ (b.frequencies.getD []).length ∧
    (a.transfers.getD []).length ≤ (b.transfers.getD []).length

/-- Like `tablesLe` but exempting the calendar table (for the by-date-range
entry point, whose reconciliation may grow calendar). -/
abbrev tablesLeExceptCalendar (a b : GTFSStore) : Prop :=
  a.agency.length ≤ b.agency.length ∧
    a.stops.length ≤ b.stops.length ∧
    a.routes.length ≤ b.routes.length ∧
    a.trips.length ≤ b.trips.length ∧
    a.stop_times.length ≤ b.stop_times.length ∧
    (a.shapes.getD []).length ≤ (b.shapes.getD []).length ∧
    (a.calendar_dates.getD []).length ≤ (b.calendar_dates.getD []).length ∧
    (a.frequencies.getD []).length ≤ (b.frequencies.getD []).length ∧
    (a.transfers.getD []).length ≤ (b.transfers.getD []).length

/-!
Concrete stores used by witnesses and counterexamples.
-/

/-- A small fully-populated, referentially closed feed: one agency, one route,
one trip on shape SH1 and service SV1, one stop S1 inside the box
[0,0,10,10] with parent station ST1, one exception-only service SV2. -/
def wsFull : GTFSStore :=
  { agency := [⟨"A1"⟩],
    stops := [⟨"S1", some "ST1", 5, 5⟩, ⟨"ST1", none, 5, 6⟩],
    routes := [⟨"R1", "A1"⟩],
    trips := [⟨"T1", "R1", "SV1", some "SH1"⟩],
    stop_times := [⟨"T1", "S1"⟩],
    shapes := some [⟨"SH1", 5, 5, 1⟩, ⟨"SH1", 6, 6, 2⟩],
    calendar := some [⟨"SV1", 1, 1, 1, 1, 1, 0, 0, 20200101, 20201231⟩],
    calendar_dates := some [⟨"SV2", 20200103⟩],
    frequencies := some [⟨"T1"⟩],
    transfers := some [⟨"S1", "S1"⟩],
    other := [("feed_info", [["pub", "en"]])] }

/-- `wsFull` without its calendar_dates table. -/
def csNoCalDates : GTFSStore :=
  { wsFull with calendar_dates := none }

/-- A referentially closed two-stop feed: child stop C whose parent station P
is a present stop; all other tables empty.  Seeding `filter_by_stop_ids` with
only C drops P but keeps C, orphaning C's `parent_station`. -/
def csParentOrphan : GTFSStore :=
  { agency := [],
    stops := [⟨"C", some "P", 0, 0⟩, ⟨"P", none, 0, 0⟩],
    routes := [],
    trips := [],
    stop_times := [],
    shapes := none,
    calendar := none,
    calendar_dates := none,
    frequencies := none,
    transfers := none,
    other := [] }

/-- A referentially closed feed with a transfer between stop S and its parent
station P.  Filtering by shape SH retains both S (via stop_times) and P (via
station closure), yet the transfer (P, S) is dropped because P is not in the
pre-closure seed. -/
def csTransfer : GTFSStore :=
  { agency := [⟨"A"⟩],
    stops := [⟨"S", some "P", 0, 0⟩, ⟨"P", none, 0, 0⟩],
    routes := [⟨"R", "A"⟩],
    trips := [⟨"T", "R", "SV", some "SH"⟩],
    stop_times := [⟨"T", "S"⟩],
    shapes := some [⟨"SH", 0, 0, 1⟩],
    calendar := some [⟨"SV", 0, 0, 0, 0, 0, 0, 0, 20200101, 20200107⟩],
    calendar_dates := none,
    frequencies := none,
    transfers := some [⟨"P", "S"⟩],
    other := [] }

/-- A feed whose single trip rides shape SH, all of whose points lie outside
the box [0,0,10,10], while its stop S lies inside. -/
def csShapeOutside : GTFSStore :=
  { agency := [⟨"A"⟩],
    stops := [⟨"S", none, 5, 5⟩],
    routes := [⟨"R", "A"⟩],
    trips := [⟨"T", "R", "SV", some "SH"⟩],
    stop_times := [⟨"T", "S"⟩],
    shapes := some [⟨"SH", 20, 20, 1⟩, ⟨"SH", 21, 21, 2⟩],
    calendar := some [⟨"SV", 0, 0, 0, 0, 0, 0, 0, 20200101, 20200107⟩],
    calendar_dates := none,
    frequencies := none,
    transfers := none,
    other := [] }

/-- A stops table with three levels of parent_station nesting:
C's parent is B, B's parent is A. -/
def stopsDeep : List StopRow :=
  [⟨"C", some "B", 0, 0⟩, ⟨"B", some "A", 0, 0⟩, ⟨"A", none, 0, 0⟩]

/-- A raw stops table whose `stop_id` column is all-numeric with a leading
zero. -/
def rawStops : List RawColumn :=
  [⟨"stop_id", ["0123", "45"]⟩]

/-- The calendar table produced by `fill_missing_service_ids_in_calendar` on
the date-masked tables: one synthesized row per missing service id (prepended
in reverse iteration order) in front of the masked calendar rows. -/
def calendarAfterFill (cd' : List CalendarDateRow) (cal' : List CalendarRow) : List CalendarRow :=
  ((missingServiceIds (cd'.map (fun r => r.service_id))
      (cal'.map (fun r => r.service_id))).reverse.map (dummyFor cd')) ++ cal'

/-- The service-id union `filter_by_calendar` hands to
`filter_by_service_ids` (filter.py lines 303-305). -/
def svcUnion (cd' : List CalendarDateRow) (cal' : List CalendarRow) : List String :=
  npUnique (cd'.map (fun r => r.service_id) ++ cal'.map (fun r => r.service_id))

/-!
Bridging lemmas.
-/

lemma isin_iff {x : String} {ids : List String} : isin x ids = true ↔ x ∈ ids := by
  simp [isin]

lemma optIsin_iff {o : Option String} {ids : List String} :
    optIsin o ids = true ↔ ∃ x, o = some x ∧ x ∈ ids := by
  cases o <;> simp [optIsin]

lemma isinOptVals_iff {x : String} {vals : List (Option String)} :
    isinOptVals x vals = true ↔ some x ∈ vals := by
  simp [isinOptVals]

lemma mem_npUnique {x : String} {l : List String} : x ∈ npUnique l ↔ x ∈ l :=
  List.mem_dedup

lemma shapeRefOk_iff {o : Option String} {ids : List String} :
    shapeRefOk o ids = true ↔ ∀ sid, o = some sid → sid ∈ ids := by
  cases o <;> simp [shapeRefOk]

lemma mem_map_filter_isin {α : Type} (f : α → String) (keys : List String)
    (l : List α) (k : String) :
    k ∈ (l.filter (fun x => isin (f x) keys)).map f ↔ k ∈ l.map f ∧ k ∈ keys := by
  simp only [List.mem_map, List.mem_filter, isin, decide_eq_true_eq]
  constructor
  · rintro ⟨x, ⟨hx, hp⟩, he⟩
    exact ⟨⟨x, hx, he⟩, he ▸ hp⟩
  · rintro ⟨⟨x, hx, he⟩, hk⟩
    exact ⟨x, ⟨hx, he ▸ hk⟩, he⟩

lemma mem_map_filter_isinOptVals {α : Type} (f : α → String)
    (vals : List (Option String)) (l : List α) (k : String) :
    k ∈ (l.filter (fun x => isinOptVals (f x) vals)).map f ↔
      k ∈ l.map f ∧ some k ∈ vals := by
  simp only [List.mem_map, List.mem_filter, isinOptVals, decide_eq_true_eq]
  constructor
  · rintro ⟨x, ⟨hx, hp⟩, he⟩
    exact ⟨⟨x, hx, he⟩, he ▸ hp⟩
  · rintro ⟨⟨x, hx, he⟩, hk⟩
    exact ⟨x, ⟨hx, he ▸ hk⟩, he⟩

lemma getD_map_filter {α : Type} (o : Option (List α)) (p : α → Bool) :
    (o.map (fun l => l.filter p)).getD [] = (o.getD []).filter p := by
  cases o <;> rfl

/-!
Field equations for `filter_by_stop_ids`: each retained table is a mask over
the original, whose key set is read off the already-filtered upstream table.
-/

lemma fbsi_other (s : GTFSStore) (ids : List String) :
    (filter_by_stop_ids s ids).other = s.other := rfl

lemma fbsi_stops (s : GTFSStore) (ids : List String) :
    (filter_by_stop_ids s ids).stops = s.stops.filter (fun r => isin r.stop_id ids) := rfl

lemma fbsi_stop_times (s : GTFSStore) (ids : List String) :
    (filter_by_stop_ids s ids).stop_times =
      s.stop_times.filter (fun r => isin r.stop_id ids) := rfl

lemma fbsi_trips (s : GTFSStore) (ids : List String) :
    (filter_by_stop_ids s ids).trips =
      s.trips.filter (fun t => isin t.trip_id
        ((filter_by_stop_ids s ids).stop_times.map (fun r => r.trip_id))) := rfl

lemma fbsi_routes (s : GTFSStore) (ids : List String) :
    (filter_by_stop_ids s ids).routes =
      s.routes.filter (fun r => isin r.route_id
        ((filter_by_stop_ids s ids).trips.map (fun t => t.route_id))) := rfl

lemma fbsi_agency (s : GTFSStore) (ids : List String) :
    (filter_by_stop_ids s ids).agency =
      s.agency.filter (fun a => isin a.agency_id
        ((filter_by_stop_ids s ids).routes.map (fun r => r.agency_id))) := rfl

lemma fbsi_shapes (s : GTFSStore) (ids : List String) :
    (filter_by_stop_ids s ids).shapes =
      s.shapes.map (fun sh => sh.filter (fun r => isinOptVals r.shape_id
        ((filter_by_stop_ids s ids).trips.map (fun t => t.shape_id)))) := rfl

lemma fbsi_calendar (s : GTFSStore) (ids : List String) :
    (filter_by_stop_ids s ids).calendar =
      s.calendar.map (fun c => c.filter (fun r => isin r.service_id
        ((filter_by_stop_ids s ids).trips.map (fun t => t.service_id)))) := rfl

lemma fbsi_calendar_dates (s : GTFSStore) (ids : List String) :
    (filter_by_stop_ids s ids).calendar_dates =
      s.calendar_dates.map (fun c => c.filter (fun r => isin r.service_id
        ((filter_by_stop_ids s ids).trips.map (fun t => t.service_id)))) := rfl

lemma fbsi_frequencies (s : GTFSStore) (ids : List String) :
    (filter_by_stop_ids s ids).frequencies =
      s.frequencies.map (fun fr => fr.filter (fun f => isin f.trip_id
        ((filter_by_stop_ids s ids).stop_times.map (fun r => r.trip_id)))) := rfl

lemma fbsi_transfers (s : GTFSStore) (ids : List String) :
    (filter_by_stop_ids s ids).transfers =
      s.transfers.map (fun tr => tr.filter
        (fun t => isin t.from_stop_id ids && isin t.to_stop_id ids)) := rfl

/-- `filter_by_stop_ids` preserves referential closure on every managed
foreign key except stops.parent_station. -/
lemma fbsi_refClosed (s : GTFSStore) (ids : List String) (hs : RefClosedCore s) :
    RefClosedCore (filter_by_stop_ids s ids) := by
  obtain ⟨h1, h2, h3, h4, h5, h6, h7, h8⟩ := hs
  refine ⟨?_, ?_, ?_, ?_, ?_, ?_, ?_, ?_⟩
  · intro r hr
    have hrm : r ∈ s.routes := by
      rw [fbsi_routes] at hr
      exact (List.mem_filter.mp hr).1
    rw [fbsi_agency, mem_map_filter_isin]
    exact ⟨h1 r hrm, List.mem_map_of_mem _ hr⟩
  · intro t ht
    have htm : t ∈ s.trips := by
      rw [fbsi_trips] at ht
      exact (List.mem_filter.mp ht).1
    rw [fbsi_routes, mem_map_filter_isin]
    exact ⟨h2 t htm, List.mem_map_of_mem _ ht⟩
  · intro t ht
    have htm : t ∈ s.trips := by
      rw [fbsi_trips] at ht
      exact (List.mem_filter.mp ht).1
    have hu := h3 t htm
    unfold serviceUniverse at hu ⊢
    rw [fbsi_calendar, fbsi_calendar_dates, getD_map_filter, getD_map_filter]
    rw [List.mem_append] at hu ⊢
    rcases hu with hc | hc
    · left
      rw [mem_map_filter_isin]
      exact ⟨hc, List.mem_map_of_mem _ ht⟩
    · right
      rw [mem_map_filter_isin]
      exact ⟨hc, List.mem_map_of_mem _ ht⟩
  · intro t ht
    have htm : t ∈ s.trips := by
      rw [fbsi_trips] at ht
      exact (List.mem_filter.mp ht).1
    rw [shapeRefOk_iff]
    intro sid hsid
    have h4x := (shapeRefOk_iff.mp (h4 t htm)) sid hsid
    rw [fbsi_shapes, getD_map_filter, mem_map_filter_isinOptVals]
    refine ⟨h4x, ?_⟩
    rw [← hsid]
    exact List.mem_map_of_mem _ ht
  · intro x hx
    have hxm : x ∈ s.stop_times := by
      rw [fbsi_stop_times] at hx
      exact (List.mem_filter.mp hx).1
    rw [fbsi_trips, mem_map_filter_isin]
    exact ⟨h5 x hxm, List.mem_map_of_mem _ hx⟩
  · intro x hx
    rw [fbsi_stop_times] at hx
    obtain ⟨hxm, hxf⟩ := List.mem_filter.mp hx
    rw [fbsi_stops, mem_map_filter_isin]
    exact ⟨h6 x hxm, isin_iff.mp hxf⟩
  · intro t ht
    rw [fbsi_transfers, getD_map_filter, List.mem_filter] at ht
    obtain ⟨htm, htf⟩ := ht
    rw [Bool.and_eq_true] at htf
    obtain ⟨hf, ht2⟩ := htf
    obtain ⟨hfm, htm2⟩ := h7 t htm
    constructor
    · rw [fbsi_stops, mem_map_filter_isin]
      exact ⟨hfm, isin_iff.mp hf⟩
    · rw [fbsi_stops, mem_map_filter_isin]
      exact ⟨htm2, isin_iff.mp ht2⟩
  · intro f hf
    rw [fbsi_frequencies, getD_map_filter, List.mem_filter] at hf
    obtain ⟨hfm, hff⟩ := hf
    rw [fbsi_trips, mem_map_filter_isin]
    exact ⟨h8 f hfm, isin_iff.mp hff⟩

/-!
Field equations for `filter_by_shape_ids` (on a store whose shapes table is
present), and the KeyError case.
-/

lemma fbshi_err (s : GTFSStore) (ids : List String) (hsh : s.shapes = none) :
    filter_by_shape_ids s ids = (s, some "KeyError: shapes") := by
  obtain ⟨ag, st, rt, tr, stt, shp, cal, cd, fr, tf, ot⟩ := s
  have h2 : shp = none := hsh
  subst h2
  rfl

lemma fbshi_snd (s : GTFSStore) (sh : List ShapeRow) (ids : List String)
    (hsh : s.shapes = some sh) : (filter_by_shape_ids s ids).2 = none := by
  obtain ⟨ag, st, rt, tr, stt, shp, cal, cd, fr, tf, ot⟩ := s
  have h2 : shp = some sh := hsh
  subst h2
  rfl

lemma fbshi_other (s : GTFSStore) (sh : List ShapeRow) (ids : List String)
    (hsh : s.shapes = some sh) : (filter_by_shape_ids s ids).1.other = s.other := by
  obtain ⟨ag, st, rt, tr, stt, shp, cal, cd, fr, tf, ot⟩ := s
  have h2 : shp = some sh := hsh
  subst h2
  rfl

lemma fbshi_trips (s : GTFSStore) (sh : List ShapeRow) (ids : List String)
    (hsh : s.shapes = some sh) :
    (filter_by_shape_ids s ids).1.trips =
      s.trips.filter (fun t => optIsin t.shape_id ids) := by
  obtain ⟨ag, st, rt, tr, stt, shp, cal, cd, fr, tf, ot⟩ := s
  have h2 : shp = some sh := hsh
  subst h2
  rfl

lemma fbshi_shapes (s : GTFSStore) (sh : List ShapeRow) (ids : List String)
    (hsh : s.shapes = some sh) :
    (filter_by_shape_ids s ids).1.shapes =
      some (sh.filter (fun r => isin r.shape_id ids)) := by
  obtain ⟨ag, st, rt, tr, stt, shp, cal, cd, fr, tf, ot⟩ := s
  have h2 : shp = some sh := hsh
  subst h2
  rfl

lemma fbshi_routes (s : GTFSStore) (sh : List ShapeRow) (ids : List String)
    (hsh : s.shapes = some sh) :
    (filter_by_shape_ids s ids).1.routes =
      s.routes.filter (fun r => isin r.route_id
        ((filter_by_shape_ids s ids).1.trips.map (fun t => t.route_id))) := by
  obtain ⟨ag, st, rt, tr, stt, shp, cal, cd, fr, tf, ot⟩ := s
  have h2 : shp = some sh := hsh
  subst h2
  rfl

lemma fbshi_agency (s : GTFSStore) (sh : List ShapeRow) (ids : List String)
    (hsh : s.shapes = some sh) :
    (filter_by_shape_ids s ids).1.agency =
      s.agency.filter (fun a => isin a.agency_id
        ((filter_by_shape_ids s ids).1.routes.map (fun r => r.agency_id))) := by
  obtain ⟨ag, st, rt, tr, stt, shp, cal, cd, fr, tf, ot⟩ := s
  have h2 : shp = some sh := hsh
  subst h2
  rfl

lemma fbshi_stop_times (s : GTFSStore) (sh : List ShapeRow) (ids : List String)
    (hsh : s.shapes = some sh) :
    (filter_by_shape_ids s ids).1.stop_times =
      s.stop_times.filter (fun r => isin r.trip_id
        ((filter_by_shape_ids s ids).1.trips.map (fun t => t.trip_id))) := by
  obtain ⟨ag, st, rt, tr, stt, shp, cal, cd, fr, tf, ot⟩ := s
  have h2 : shp = some sh := hsh
  subst h2
  rfl

lemma fbshi_stops (s : GTFSStore) (sh : List ShapeRow) (ids : List String)
    (hsh : s.shapes = some sh) :
    (filter_by_shape_ids s ids).1.stops =
      s.stops.filter (fun r => isin r.stop_id (npUnique
        (((filter_by_shape_ids s ids).1.stop_times.map (fun x => x.stop_id)) ++
          (s.stops.filter (fun r => isin r.stop_id
            ((filter_by_shape_ids s ids).1.stop_times.map (fun x => x.stop_id)))).filterMap
            (fun r => r.parent_station)))) := by
  obtain ⟨ag, st, rt, tr, stt, shp, cal, cd, fr, tf, ot⟩ := s
  have h2 : shp = some sh := hsh
  subst h2
  rfl

lemma fbshi_calendar (s : GTFSStore) (sh : List ShapeRow) (ids : List String)
    (hsh : s.shapes = some sh) :
    (filter_by_shape_ids s ids).1.calendar =
      s.calendar.map (fun c => c.filter (fun r => isin r.service_id
        ((filter_by_shape_ids s ids).1.trips.map (fun t => t.service_id)))) := by
  obtain ⟨ag, st, rt, tr, stt, shp, cal, cd, fr, tf, ot⟩ := s
  have h2 : shp = some sh := hsh
  subst h2
  rfl

lemma fbshi_calendar_dates (s : GTFSStore) (sh : List ShapeRow) (ids : List String)
    (hsh : s.shapes = some sh) :
    (filter_by_shape_ids s ids).1.calendar_dates =
      s.calendar_dates.map (fun c => c.filter (fun r => isin r.service_id
        ((filter_by_shape_ids s ids).1.trips.map (fun t => t.service_id)))) := by
  obtain ⟨ag, st, rt, tr, stt, shp, cal, cd, fr, tf, ot⟩ := s
  have h2 : shp = some sh := hsh
  subst h2
  rfl

lemma fbshi_frequencies (s : GTFSStore) (sh : List ShapeRow) (ids : List String)
    (hsh : s.shapes = some sh) :
    (filter_by_shape_ids s ids).1.frequencies =
      s.frequencies.map (fun fr => fr.filter (fun f => isin f.trip_id
        ((filter_by_shape_ids s ids).1.trips.map (fun t => t.trip_id)))) := by
  obtain ⟨ag, st, rt, tr, stt, shp, cal, cd, fr, tf, ot⟩ := s
  have h2 : shp = some sh := hsh
  subst h2
  rfl

lemma fbshi_transfers (s : GTFSStore) (sh : List ShapeRow) (ids : List String)
    (hsh : s.shapes = some sh) :
    (filter_by_shape_ids s ids).1.transfers =
      s.transfers.map (fun tr => tr.filter
        (fun t => isin t.from_stop_id
            ((filter_by_shape_ids s ids).1.stop_times.map (fun x => x.stop_id)) &&
          isin t.to_stop_id
            ((filter_by_shape_ids s ids).1.stop_times.map (fun x => x.stop_id)))) := by
  obtain ⟨ag, st, rt, tr, stt, shp, cal, cd, fr, tf, ot⟩ := s
  have h2 : shp = some sh := hsh
  subst h2
  rfl

/-- Helper: a stop id in the pre-closure seed is retained by the
station-closure stops mask built from that seed. -/
lemma mem_seed_mem_closure_keys (seed parents : List String) (k : String)
    (hk : k ∈ seed) : k ∈ npUnique (seed ++ parents) := by
  rw [mem_npUnique, List.mem_append]
  exact Or.inl hk

/-- `filter_by_shape_ids` preserves referential closure on every managed
foreign key except stops.parent_station, whenever the shapes table is
present (otherwise the call raises before mutating anything). -/
lemma fbshi_refClosed (s : GTFSStore) (sh : List ShapeRow) (ids : List String)
    (hsh : s.shapes = some sh) (hs : RefClosedCore s) :
    RefClosedCore (filter_by_shape_ids s ids).1 := by
  obtain ⟨h1, h2, h3, h4, h5, h6, h7, h8⟩ := hs
  refine ⟨?_, ?_, ?_, ?_, ?_, ?_, ?_, ?_⟩
  · intro r hr
    have hrm : r ∈ s.routes := by
      rw [fbshi_routes s sh ids hsh] at hr
      exact (List.mem_filter.mp hr).1
    rw [fbshi_agency s sh ids hsh, mem_map_filter_isin]
    exact ⟨h1 r hrm, List.mem_map_of_mem _ hr⟩
  · intro t ht
    have htm : t ∈ s.trips := by
      rw [fbshi_trips s sh ids hsh] at ht
      exact (List.mem_filter.mp ht).1
    rw [fbshi_routes s sh ids hsh, mem_map_filter_isin]
    exact ⟨h2 t htm, List.mem_map_of_mem _ ht⟩
  · intro t ht
    have htm : t ∈ s.trips := by
      rw [fbshi_trips s sh ids hsh] at ht
      exact (List.mem_filter.mp ht).1
    have hu := h3 t htm
    unfold serviceUniverse at hu ⊢
    rw [fbshi_calendar s sh ids hsh, fbshi_calendar_dates s sh ids hsh,
      getD_map_filter, getD_map_filter]
    rw [List.mem_append] at hu ⊢
    rcases hu with hc | hc
    · left
      rw [mem_map_filter_isin]
      exact ⟨hc, List.mem_map_of_mem _ ht⟩
    · right
      rw [mem_map_filter_isin]
      exact ⟨hc, List.mem_map_of_mem _ ht⟩
  · intro t ht
    rw [fbshi_trips s sh ids hsh] at ht
    obtain ⟨htm, htf⟩ := List.mem_filter.mp ht
    rw [shapeRefOk_iff]
    intro sid hsid
    have h4x := (shapeRefOk_iff.mp (h4 t htm)) sid hsid
    rw [hsh] at h4x
    have hsid2 : sid ∈ ids := by
      obtain ⟨x, hx1, hx2⟩ := optIsin_iff.mp htf
      rw [hsid] at hx1
      cases hx1
      exact hx2
    rw [fbshi_shapes s sh ids hsh]
    simp only [Option.getD_some]
    rw [mem_map_filter_isin]
    exact ⟨h4x, hsid2⟩
  · intro x hx
    rw [fbshi_stop_times s sh ids hsh] at hx
    obtain ⟨hxm, hxf⟩ := List.mem_filter.mp hx
    exact isin_iff.mp hxf
  · intro x hx
    have hxm : x ∈ s.stop_times := by
      rw [fbshi_stop_times s sh ids hsh] at hx
      exact (List.mem_filter.mp hx).1
    rw [fbshi_stops s sh ids hsh, mem_map_filter_isin]
    refine ⟨h6 x hxm, ?_⟩
    exact mem_seed_mem_closure_keys _ _ _ (List.mem_map_of_mem _ hx)
  · intro t ht
    rw [fbshi_transfers s sh ids hsh, getD_map_filter, List.mem_filter] at ht
    obtain ⟨htm, htf⟩ := ht
    rw [Bool.and_eq_true] at htf
    obtain ⟨hf, ht2⟩ := htf
    obtain ⟨hfm, htm2⟩ := h7 t htm
    constructor
    · rw [fbshi_stops s sh ids hsh, mem_map_filter_isin]
      exact ⟨hfm, mem_seed_mem_closure_keys _ _ _ (isin_iff.mp hf)⟩
    · rw [fbshi_stops s sh ids hsh, mem_map_filter_isin]
      exact ⟨htm2, mem_seed_mem_closure_keys _ _ _ (isin_iff.mp ht2)⟩
  · intro f hf
    rw [fbshi_frequencies s sh ids hsh, getD_map_filter, List.mem_filter] at hf
    obtain ⟨hfm, hff⟩ := hf
    exact isin_iff.mp hff

/-!
Field equations for `filter_by_service_ids`.  Note calendar and
calendar_dates are untouched by this entry point.
-/

lemma fbsv_other (s : GTFSStore) (svc : List String) :
    (filter_by_service_ids s svc).other = s.other := rfl

lemma fbsv_calendar (s : GTFSStore) (svc : List String) :
    (filter_by_service_ids s svc).calendar = s.calendar := rfl

lemma fbsv_calendar_dates (s : GTFSStore) (svc : List String) :
    (filter_by_service_ids s svc).calendar_dates = s.calendar_dates := rfl

lemma fbsv_trips (s : GTFSStore) (svc : List String) :
    (filter_by_service_ids s svc).trips =
      s.trips.filter (fun t => isin t.service_id svc) := rfl

lemma fbsv_stop_times (s : GTFSStore) (svc : List String) :
    (filter_by_service_ids s svc).stop_times =
      s.stop_times.filter (fun r => isin r.trip_id
        ((filter_by_service_ids s svc).trips.map (fun t => t.trip_id))) := rfl

lemma fbsv_stops (s : GTFSStore) (svc : List String) :
    (filter_by_service_ids s svc).stops =
      s.stops.filter (fun r => isin r.stop_id (npUnique
        (((filter_by_service_ids s svc).stop_times.map (fun x => x.stop_id)) ++
          (s.stops.filter (fun r => isin r.stop_id
            ((filter_by_service_ids s svc).stop_times.map (fun x => x.stop_id)))).filterMap
            (fun r => r.parent_station)))) := rfl

lemma fbsv_routes (s : GTFSStore) (svc : List String) :
    (filter_by_service_ids s svc).routes =
      s.routes.filter (fun r => isin r.route_id
        ((filter_by_service_ids s svc).trips.map (fun t => t.route_id))) := rfl

lemma fbsv_agency (s : GTFSStore) (svc : List String) :
    (filter_by_service_ids s svc).agency =
      s.agency.filter (fun a => isin a.agency_id
        ((filter_by_service_ids s svc).routes.map (fun r => r.agency_id))) := rfl

lemma fbsv_shapes (s : GTFSStore) (svc : List String) :
    (filter_by_service_ids s svc).shapes =
      s.shapes.map (fun sh => sh.filter (fun r => isinOptVals r.shape_id
        ((filter_by_service_ids s svc).trips.map (fun t => t.shape_id)))) := rfl

lemma fbsv_transfers (s : GTFSStore) (svc : List String) :
    (filter_by_service_ids s svc).transfers =
      s.transfers.map (fun tr => tr.filter
        (fun t => isin t.from_stop_id
            ((filter_by_service_ids s svc).stop_times.map (fun x => x.stop_id)) &&
          isin t.to_stop_id
            ((filter_by_service_ids s svc).stop_times.map (fun x => x.stop_id)))) := rfl

lemma fbsv_frequencies (s : GTFSStore) (svc : List String) :
    (filter_by_service_ids s svc).frequencies =
      s.frequencies.map (fun fr => fr.filter (fun f => isin f.trip_id
        ((filter_by_service_ids s svc).trips.map (fun t => t.trip_id)))) := rfl

/-- `filter_by_service_ids` preserves referential closure on every managed
foreign key except stops.parent_station.  The trips/service clause is taken
in the generalized form needed both for the standalone entry point and for
the by-date-range composition: every original trip whose service id passes
the mask must point into the service universe of the given store, which this
entry point leaves untouched. -/
lemma fbsv_refClosed (s : GTFSStore) (svc : List String)
    (h1 : routesClosed s) (h2 : tripsRouteClosed s)
    (h3x : ∀ t ∈ s.trips, isin t.service_id svc = true → t.service_id ∈ serviceUniverse s)
    (h4 : tripsShapeClosed s) (h6 : stopTimesStopClosed s) (h7 : transfersClosed s) :
    RefClosedCore (filter_by_service_ids s svc) := by
  refine ⟨?_, ?_, ?_, ?_, ?_, ?_, ?_, ?_⟩
  · intro r hr
    have hrm : r ∈ s.routes := by
      rw [fbsv_routes] at hr
      exact (List.mem_filter.mp hr).1
    rw [fbsv_agency, mem_map_filter_isin]
    exact ⟨h1 r hrm, List.mem_map_of_mem _ hr⟩
  · intro t ht
    have htm : t ∈ s.trips := by
      rw [fbsv_trips] at ht
      exact (List.mem_filter.mp ht).1
    rw [fbsv_routes, mem_map_filter_isin]
    exact ⟨h2 t htm, List.mem_map_of_mem _ ht⟩
  · intro t ht
    rw [fbsv_trips] at ht
    obtain ⟨htm, htf⟩ := List.mem_filter.mp ht
    have hu := h3x t htm htf
    unfold serviceUniverse at hu ⊢
    rw [fbsv_calendar, fbsv_calendar_dates]
    exact hu
  · intro t ht
    have htm : t ∈ s.trips := by
      rw [fbsv_trips] at ht
      exact (List.mem_filter.mp ht).1
    rw [shapeRefOk_iff]
    intro sid hsid
    have h4x := (shapeRefOk_iff.mp (h4 t htm)) sid hsid
    rw [fbsv_shapes, getD_map_filter, mem_map_filter_isinOptVals]
    refine ⟨h4x, ?_⟩
    rw [← hsid]
    exact List.mem_map_of_mem _ ht
  · intro x hx
    rw [fbsv_stop_times] at hx
    obtain ⟨hxm, hxf⟩ := List.mem_filter.mp hx
    exact isin_iff.mp hxf
  · intro x hx
    have hxm : x ∈ s.stop_times := by
      rw [fbsv_stop_times] at hx
      exact (List.mem_filter.mp hx).1
    rw [fbsv_stops, mem_map_filter_isin]
    refine ⟨h6 x hxm, ?_⟩
    exact mem_seed_mem_closure_keys _ _ _ (List.mem_map_of_mem _ hx)
  · intro t ht
    rw [fbsv_transfers, getD_map_filter, List.mem_filter] at ht
    obtain ⟨htm, htf⟩ := ht
    rw [Bool.and_eq_true] at htf
    obtain ⟨hf, ht2⟩ := htf
    obtain ⟨hfm, htm2⟩ := h7 t htm
    constructor
    · rw [fbsv_stops, mem_map_filter_isin]
      exact ⟨hfm, mem_seed_mem_closure_keys _ _ _ (isin_iff.mp hf)⟩
    · rw [fbsv_stops, mem_map_filter_isin]
      exact ⟨htm2, mem_seed_mem_closure_keys _ _ _ (isin_iff.mp ht2)⟩
  · intro f hf
    rw [fbsv_frequencies, getD_map_filter, List.mem_filter] at hf
    obtain ⟨hfm, hff⟩ := hf
    exact isin_iff.mp hff

/-!
The reconciliation loop and the success shape of `filter_by_calendar`.
-/

lemma fillLoop_eq (cd : List CalendarDateRow) (acc : List CalendarRow) (l : List String)
    (h : ∀ sid ∈ l, cd.filter (fun r => r.service_id == sid) ≠ []) :
    fillLoop cd acc l = Except.ok ((l.reverse.map (dummyFor cd)) ++ acc) := by
  induction l generalizing acc with
  | nil => simp [fillLoop]
  | cons a rest ih =>
    have ha := h a (List.mem_cons_self a rest)
    cases hcf : cd.filter (fun r => r.service_id == a) with
    | nil => exact absurd hcf ha
    | cons row rows =>
      have hh : (cd.filter (fun r => r.service_id == a)).head? = some row := by
        rw [hcf]
        rfl
      simp only [fillLoop, hh]
      rw [ih (mkDummy a row.date :: acc) (fun sid hs => h sid (List.mem_cons_of_mem _ hs))]
      simp [dummyFor, hh, List.reverse_cons, List.map_append, List.append_assoc]

lemma missing_sub (cdSids calSids : List String) :
    ∀ x ∈ missingServiceIds cdSids calSids, x ∈ cdSids ∧ x ∉ calSids := by
  intro x hx
  unfold missingServiceIds npUnique at hx
  rw [List.mem_dedup, List.mem_filter] at hx
  obtain ⟨hx1, hx2⟩ := hx
  refine ⟨hx1, ?_⟩
  rw [Bool.not_eq_eq_eq_not, Bool.not_true] at hx2
  intro hmem
  rw [← isin_iff] at hmem
  rw [hmem] at hx2
  cases hx2

lemma filter_ne_nil_of_mem_map {cd : List CalendarDateRow} {sid : String}
    (h : sid ∈ cd.map (fun r => r.service_id)) :
    cd.filter (fun r => r.service_id == sid) ≠ [] := by
  obtain ⟨r, hr, he⟩ := List.mem_map.mp h
  intro hnil
  have hmem : r ∈ cd.filter (fun r => r.service_id == sid) :=
    List.mem_filter.mpr ⟨hr, by simp [he]⟩
  rw [hnil] at hmem
  exact absurd hmem (List.not_mem_nil r)

lemma fbc_err_nocd (s : GTFSStore) (d1 d2 : Nat) (hcd : s.calendar_dates = none) :
    filter_by_calendar s d1 d2 = (s, some "KeyError: calendar_dates") := by
  obtain ⟨ag, st, rt, tr, stt, shp, cal, cd0, fr, tf, ot⟩ := s
  have h2 : cd0 = none := hcd
  subst h2
  rfl

lemma fbc_err_nocal (s : GTFSStore) (cd : List CalendarDateRow) (d1 d2 : Nat)
    (hcd : s.calendar_dates = some cd) (hcal : s.calendar = none) :
    filter_by_calendar s d1 d2 =
      ({ s with calendar_dates := some (dateMaskCd cd d1 d2) }, some "KeyError: calendar") := by
  obtain ⟨ag, st, rt, tr, stt, shp, cal0, cd0, fr, tf, ot⟩ := s
  have h2 : cd0 = some cd := hcd
  subst h2
  have h3 : cal0 = none := hcal
  subst h3
  rfl

lemma fbc_eq (s : GTFSStore) (cd : List CalendarDateRow) (cal : List CalendarRow) (d1 d2 : Nat)
    (hcd : s.calendar_dates = some cd) (hcal : s.calendar = some cal) :
    filter_by_calendar s d1 d2 =
      (filter_by_service_ids
        { s with calendar_dates := some (dateMaskCd cd d1 d2),
                 calendar := some (calendarAfterFill (dateMaskCd cd d1 d2) (dateMaskCal cal d1 d2)) }
        (svcUnion (dateMaskCd cd d1 d2) (dateMaskCal cal d1 d2)), none) := by
  obtain ⟨ag, st, rt, tr, stt, shp, cal0, cd0, fr, tf, ot⟩ := s
  have h2 : cd0 = some cd := hcd
  subst h2
  have h3 : cal0 = some cal := hcal
  subst h3
  have hfl : fillLoop (dateMaskCd cd d1 d2) (dateMaskCal cal d1 d2)
      (missingServiceIds ((dateMaskCd cd d1 d2).map (fun r => r.service_id))
        ((dateMaskCal cal d1 d2).map (fun r => r.service_id))) =
      Except.ok (calendarAfterFill (dateMaskCd cd d1 d2) (dateMaskCal cal d1 d2)) := by
    rw [fillLoop_eq]
    · rfl
    · intro sid hs
      exact filter_ne_nil_of_mem_map (missing_sub _ _ sid hs).1
  simp only [filter_by_calendar, fill_missing_service_ids_in_calendar, hfl, svcUnion]

/-!
Delegation equations for the spatial entry points and the by-agency entry
point.
-/

lemma sfbs_eq (s : GTFSStore) (fg : FilterGeometry) (box : Box)
    (hfg : normalizeGeometry fg = Except.ok box) :
    spatial_filter_by_stops s fg =
      (filter_by_stop_ids s
        ((s.stops.filter (fun r => pointInBox box r.lon r.lat)).map (fun r => r.stop_id)),
       none) := by
  simp only [spatial_filter_by_stops, hfg]

lemma sfbs_err (s : GTFSStore) (fg : FilterGeometry) (e : String)
    (hfg : normalizeGeometry fg = Except.error e) :
    spatial_filter_by_stops s fg = (s, some e) := by
  simp only [spatial_filter_by_stops, hfg]

lemma sfbst_eq (s : GTFSStore) (fg : FilterGeometry) (box : Box)
    (hfg : normalizeGeometry fg = Except.ok box) :
    spatial_filter_by_stations s fg =
      (filter_by_stop_ids s (get_stop_ids_including_stations_within_geometry s box),
       none) := by
  simp only [spatial_filter_by_stations, hfg]

lemma sfbst_err (s : GTFSStore) (fg : FilterGeometry) (e : String)
    (hfg : normalizeGeometry fg = Except.error e) :
    spatial_filter_by_stations s fg = (s, some e) := by
  simp only [spatial_filter_by_stations, hfg]

lemma sfbsh_eq (s : GTFSStore) (fg : FilterGeometry) (box : Box) (sh : List ShapeRow)
    (op : String) (hfg : normalizeGeometry fg = Except.ok box) (hsh : s.shapes = some sh)
    (hop : op = "within" ∨ op = "intersects") :
    spatial_filter_by_shapes s fg op = filter_by_shape_ids s (shapeLineIds sh box op) := by
  simp only [spatial_filter_by_shapes, hfg, hsh]
  rw [if_pos hop]

lemma sfbsh_err_geom (s : GTFSStore) (fg : FilterGeometry) (op : String) (e : String)
    (hfg : normalizeGeometry fg = Except.error e) :
    spatial_filter_by_shapes s fg op = (s, some e) := by
  simp only [spatial_filter_by_shapes, hfg]

lemma sfbsh_err_noshapes (s : GTFSStore) (fg : FilterGeometry) (box : Box) (op : String)
    (hfg : normalizeGeometry fg = Except.ok box) (hsh : s.shapes = none) :
    spatial_filter_by_shapes s fg op = (s, some "ValueError: shapes.txt not found in GTFS") := by
  simp only [spatial_filter_by_shapes, hfg, hsh]

lemma sfbsh_err_op (s : GTFSStore) (fg : FilterGeometry) (box : Box) (sh : List ShapeRow)
    (op : String) (hfg : normalizeGeometry fg = Except.ok box) (hsh : s.shapes = some sh)
    (hop : ¬(op = "within" ∨ op = "intersects")) :
    spatial_filter_by_shapes s fg op = (s, some "ValueError: Operation not supported") := by
  simp only [spatial_filter_by_shapes, hfg, hsh]
  rw [if_neg hop]

lemma fba_snd (s : GTFSStore) (ids : List String) :
    (filter_by_agency_ids s ids).2 =
      some "TypeError: filter_stops_including_stations_by_stop_ids missing 1 required positional argument" := rfl

lemma fba_other (s : GTFSStore) (ids : List String) :
    (filter_by_agency_ids s ids).1.other = s.other := rfl

/-- Claim C1, counterexample: on a referentially closed store holding a child
stop C whose parent station is the stop P, `filter_by_stop_ids` with seed
{C} keeps C but drops P (this entry point applies no station closure), so the
retained C's `parent_station` no longer refers to any retained stop: the
claimed no-orphan property, which includes stops.parent_station, fails. -/
theorem c1_parent_station_orphan :
    FullRefClosed csParentOrphan ∧
      ¬ FullRefClosed (filter_by_stop_ids csParentOrphan ["C"]) := by
  constructor
  · decide
  · decide

/-- Claim C1 (amended): for every filter entry point, on an input store that
is referentially closed, every foreign key among routes.agency_id,
trips.route_id, trips.service_id, trips.shape_id, stop_times.trip_id,
stop_times.stop_id, transfers.from_stop_id/to_stop_id and frequencies.trip_id
again refers to a retained row after any call that completes without raising;
the self-referential stops.parent_station is excluded, as it can be orphaned
(see the counterexample).  For `filter_by_agency_ids` the conclusion is
vacuous: that entry point always raises. -/
theorem c1_referential_closure_amended (s : GTFSStore)
    (stop_ids shape_ids svc_ids ag_ids : List String) (fg : FilterGeometry)
    (op : String) (d1 d2 : Nat) (hs : RefClosedCore s) :
    RefClosedCore (filter_by_stop_ids s stop_ids) ∧
    ((filter_by_shape_ids s shape_ids).2 = none →
      RefClosedCore (filter_by_shape_ids s shape_ids).1) ∧
    RefClosedCore (filter_by_service_ids s svc_ids) ∧
    ((filter_by_agency_ids s ag_ids).2 = none →
      RefClosedCore (filter_by_agency_ids s ag_ids).1) ∧
    ((filter_by_calendar s d1 d2).2 = none →
      RefClosedCore (filter_by_calendar s d1 d2).1) ∧
    ((spatial_filter_by_stops s fg).2 = none →
      RefClosedCore (spatial_filter_by_stops s fg).1) ∧
    ((spatial_filter_by_stations s fg).2 = none →
      RefClosedCore (spatial_filter_by_stations s fg).1) ∧
    ((spatial_filter_by_shapes s fg op).2 = none →
      RefClosedCore (spatial_filter_by_shapes s fg op).1) := by
  refine ⟨fbsi_refClosed s stop_ids hs, ?_, ?_, ?_, ?_, ?_, ?_, ?_⟩
  · intro h
    cases hsh : s.shapes with
    | none =>
      rw [fbshi_err s shape_ids hsh] at h
      simp at h
    | some sh => exact fbshi_refClosed s sh shape_ids hsh hs
  · obtain ⟨h1, h2, h3, h4, h5, h6, h7, h8⟩ := hs
    exact fbsv_refClosed s svc_ids h1 h2 (fun t htm _ => h3 t htm) h4 h6 h7
  · intro h
    rw [fba_snd] at h
    simp at h
  · intro h
    cases hcd : s.calendar_dates with
    | none =>
      rw [fbc_err_nocd s d1 d2 hcd] at h
      simp at h
    | some cd =>
      cases hcal : s.calendar with
      | none =>
        rw [fbc_err_nocal s cd d1 d2 hcd hcal] at h
        simp at h
      | some cal =>
        rw [fbc_eq s cd cal d1 d2 hcd hcal]
        obtain ⟨h1, h2, h3, h4, h5, h6, h7, h8⟩ := hs
        refine fbsv_refClosed _ _ h1 h2 ?_ h4 h6 h7
        intro t htm hf
        have hmem := isin_iff.mp hf
        unfold svcUnion npUnique at hmem
        rw [List.mem_dedup, List.mem_append] at hmem
        show t.service_id ∈
          (calendarAfterFill (dateMaskCd cd d1 d2) (dateMaskCal cal d1 d2)).map
              (fun r => r.service_id) ++
            (dateMaskCd cd d1 d2).map (fun r => r.service_id)
        rw [List.mem_append]
        rcases hmem with hcds | hcals
        · right
          exact hcds
        · left
          unfold calendarAfterFill
          rw [List.map_append, List.mem_append]
          right
          exact hcals
  · intro h
    cases hfg : normalizeGeometry fg with
    | error e =>
      rw [sfbs_err s fg e hfg] at h
      simp at h
    | ok box =>
      rw [sfbs_eq s fg box hfg]
      exact fbsi_refClosed s _ hs
  · intro h
    cases hfg : normalizeGeometry fg with
    | error e =>
      rw [sfbst_err s fg e hfg] at h
      simp at h
    | ok box =>
      rw [sfbst_eq s fg box hfg]
      exact fbsi_refClosed s _ hs
  · intro h
    cases hfg : normalizeGeometry fg with
    | error e =>
      rw [sfbsh_err_geom s fg op e hfg] at h
      simp at h
    | ok box =>
      cases hsh : s.shapes with
      | none =>
        rw [sfbsh_err_noshapes s fg box op hfg hsh] at h
        simp at h
      | some sh =>
        by_cases hop : op = "within" ∨ op = "intersects"
        · rw [sfbsh_eq s fg box sh op hfg hsh hop]
          exact fbshi_refClosed s sh _ hsh hs
        · rw [sfbsh_err_op s fg box sh op hfg hsh hop] at h
          simp at h

/-- Claim C1, witness: the amended closure theorem evaluated on the concrete
closed feed `wsFull` with each entry point's seed. -/
theorem c1_witness :
    RefClosedCore (filter_by_stop_ids wsFull ["S1"]) ∧
    ((filter_by_shape_ids wsFull ["SH1"]).2 = none →
      RefClosedCore (filter_by_shape_ids wsFull ["SH1"]).1) ∧
    RefClosedCore (filter_by_service_ids wsFull ["SV1"]) ∧
    ((filter_by_agency_ids wsFull ["A1"]).2 = none →
      RefClosedCore (filter_by_agency_ids wsFull ["A1"]).1) ∧
    ((filter_by_calendar wsFull 20200101 20200107).2 = none →
      RefClosedCore (filter_by_calendar wsFull 20200101 20200107).1) ∧
    ((spatial_filter_by_stops wsFull (FilterGeometry.boundsList [0, 0, 10, 10])).2 = none →
      RefClosedCore (spatial_filter_by_stops wsFull (FilterGeometry.boundsList [0, 0, 10, 10])).1) ∧
    ((spatial_filter_by_stations wsFull (FilterGeometry.boundsList [0, 0, 10, 10])).2 = none →
      RefClosedCore (spatial_filter_by_stations wsFull (FilterGeometry.boundsList [0, 0, 10, 10])).1) ∧
    ((spatial_filter_by_shapes wsFull (FilterGeometry.boundsList [0, 0, 10, 10]) "within").2 = none →
      RefClosedCore (spatial_filter_by_shapes wsFull
        (FilterGeometry.boundsList [0, 0, 10, 10]) "within").1) :=
  c1_referential_closure_amended wsFull ["S1"] ["SH1"] ["SV1"] ["A1"]
    (FilterGeometry.boundsList [0, 0, 10, 10]) "within" 20200101 20200107 (by decide)

/-- Claim C7 (code bug): `filter_by_agency_ids` never completes the cascade.
Source line 246 calls `filter_stops_including_stations_by_stop_ids(stops_ids)`
without its `df_dict` argument, so on every store and every agency-id seed the
call raises TypeError at the stops step; agency, routes, trips and stop_times
have already been mutated, and the shapes/calendar/calendar_dates/frequencies/
transfers steps never run. -/
theorem c7_filter_by_agency_ids_raises (s : GTFSStore) (ids : List String) :
    (filter_by_agency_ids s ids).2 =
      some "TypeError: filter_stops_including_stations_by_stop_ids missing 1 required positional argument" :=
  rfl

/-- Claim C8 (code bug): `cast_gtfs_ids` iterates `GTFS_IDS.items()`, and
`GTFS_IDS` is a list, so the cast raises AttributeError before touching any
column; `load_gtfs` catches and logs it, leaving every ID column with its
inferred dtype.  Concretely, a stops table whose `stop_id` column holds
"0123" and "45" loads as int64 with the leading zero lost, not as string as
the claim states. -/
theorem c8_cast_gtfs_ids_never_casts :
    cast_gtfs_ids (read_csv rawStops) =
      Except.error "AttributeError: list object has no attribute items" ∧
    load_gtfs_table rawStops = [⟨"stop_id", Dtype.int64, ["123", "45"]⟩] := by
  refine ⟨rfl, ?_⟩
  decide

/-- Claim C2, counterexample: `filter_by_calendar` on a store lacking the
calendar_dates table does not skip the step silently — it raises KeyError at
the very first mask (filter.py line 287 reads `df_dict["calendar_dates"]`
unconditionally), contradicting the claim that it succeeds. -/
theorem c2_filter_by_calendar_requires_calendar_dates :
    csNoCalDates.calendar_dates = none ∧
      filter_by_calendar csNoCalDates 20200101 20200107 =
        (csNoCalDates, some "KeyError: calendar_dates") := by
  refine ⟨rfl, ?_⟩
  decide

/-- Claim C2 (amended): the ID-based cascades `filter_by_stop_ids` and
`filter_by_service_ids` skip absent optional tables silently (they are total,
and each optional table's presence is preserved), but the entry points with
unconditional accesses raise: `filter_by_calendar` raises KeyError when
calendar_dates is absent (before mutating anything) and when calendar is
absent (after masking calendar_dates), and `filter_by_shape_ids` and
`spatial_filter_by_shapes` raise when shapes is absent. -/
theorem c2_optional_table_handling_amended (s : GTFSStore) (ids svc : List String)
    (fg : FilterGeometry) (box : Box) (op : String) (d1 d2 : Nat) :
    ((filter_by_stop_ids s ids).shapes.isSome = s.shapes.isSome ∧
      (filter_by_stop_ids s ids).calendar.isSome = s.calendar.isSome ∧
      (filter_by_stop_ids s ids).calendar_dates.isSome = s.calendar_dates.isSome ∧
      (filter_by_stop_ids s ids).frequencies.isSome = s.frequencies.isSome ∧
      (filter_by_stop_ids s ids).transfers.isSome = s.transfers.isSome) ∧
    ((filter_by_service_ids s svc).shapes.isSome = s.shapes.isSome ∧
      (filter_by_service_ids s svc).calendar.isSome = s.calendar.isSome ∧
      (filter_by_service_ids s svc).calendar_dates.isSome = s.calendar_dates.isSome ∧
      (filter_by_service_ids s svc).frequencies.isSome = s.frequencies.isSome ∧
      (filter_by_service_ids s svc).transfers.isSome = s.transfers.isSome) ∧
    (s.calendar_dates = none →
      filter_by_calendar s d1 d2 = (s, some "KeyError: calendar_dates")) ∧
    (s.calendar_dates ≠ none → s.calendar = none →
      (filter_by_calendar s d1 d2).2 = some "KeyError: calendar") ∧
    (s.shapes = none → filter_by_shape_ids s ids = (s, some "KeyError: shapes")) ∧
    (s.shapes = none → normalizeGeometry fg = Except.ok box →
      spatial_filter_by_shapes s fg op = (s, some "ValueError: shapes.txt not found in GTFS")) := by
  refine ⟨⟨?_, ?_, ?_, ?_, ?_⟩, ⟨?_, ?_, ?_, ?_, ?_⟩, ?_, ?_, ?_, ?_⟩
  · rw [fbsi_shapes]
    cases s.shapes <;> rfl
  · rw [fbsi_calendar]
    cases s.calendar <;> rfl
  · rw [fbsi_calendar_dates]
    cases s.calendar_dates <;> rfl
  · rw [fbsi_frequencies]
    cases s.frequencies <;> rfl
  · rw [fbsi_transfers]
    cases s.transfers <;> rfl
  · rw [fbsv_shapes]
    cases s.shapes <;> rfl
  · rw [fbsv_calendar]
  · rw [fbsv_calendar_dates]
  · rw [fbsv_frequencies]
    cases s.frequencies <;> rfl
  · rw [fbsv_transfers]
    cases s.transfers <;> rfl
  · intro hcd
    exact fbc_err_nocd s d1 d2 hcd
  · intro hcd hcal
    obtain ⟨cd, hcd2⟩ := Option.ne_none_iff_exists'.mp hcd
    rw [fbc_err_nocal s cd d1 d2 hcd2 hcal]
  · intro hsh
    exact fbshi_err s ids hsh
  · intro hsh hfg
    exact sfbsh_err_noshapes s fg box op hfg hsh

/-- Claim C2, witness: the amended behaviour evaluated on the concrete store
without calendar_dates (whose calendar step raises) and on its optional-table
preservation cases. -/
theorem c2_witness :
    ((filter_by_stop_ids csNoCalDates ["S1"]).shapes.isSome = csNoCalDates.shapes.isSome ∧
      (filter_by_stop_ids csNoCalDates ["S1"]).calendar.isSome = csNoCalDates.calendar.isSome ∧
      (filter_by_stop_ids csNoCalDates ["S1"]).calendar_dates.isSome =
        csNoCalDates.calendar_dates.isSome ∧
      (filter_by_stop_ids csNoCalDates ["S1"]).frequencies.isSome =
        csNoCalDates.frequencies.isSome ∧
      (filter_by_stop_ids csNoCalDates ["S1"]).transfers.isSome =
        csNoCalDates.transfers.isSome) ∧
    ((filter_by_service_ids csNoCalDates ["SV1"]).shapes.isSome = csNoCalDates.shapes.isSome ∧
      (filter_by_service_ids csNoCalDates ["SV1"]).calendar.isSome =
        csNoCalDates.calendar.isSome ∧
      (filter_by_service_ids csNoCalDates ["SV1"]).calendar_dates.isSome =
        csNoCalDates.calendar_dates.isSome ∧
      (filter_by_service_ids csNoCalDates ["SV1"]).frequencies.isSome =
        csNoCalDates.frequencies.isSome ∧
      (filter_by_service_ids csNoCalDates ["SV1"]).transfers.isSome =
        csNoCalDates.transfers.isSome) ∧
    (csNoCalDates.calendar_dates = none →
      filter_by_calendar csNoCalDates 20200101 20200107 =
        (csNoCalDates, some "KeyError: calendar_dates")) ∧
    (csNoCalDates.calendar_dates ≠ none → csNoCalDates.calendar = none →
      (filter_by_calendar csNoCalDates 20200101 20200107).2 = some "KeyError: calendar") ∧
    (csNoCalDates.shapes = none →
      filter_by_shape_ids csNoCalDates ["S1"] = (csNoCalDates, some "KeyError: shapes")) ∧
    (csNoCalDates.shapes = none →
      normalizeGeometry (FilterGeometry.boundsList [0, 0, 10, 10]) = Except.ok ⟨0, 0, 10, 10⟩ →
      spatial_filter_by_shapes csNoCalDates (FilterGeometry.boundsList [0, 0, 10, 10]) "within" =
        (csNoCalDates, some "ValueError: shapes.txt not found in GTFS")) :=
  c2_optional_table_handling_amended csNoCalDates ["S1"] ["SV1"]
    (FilterGeometry.boundsList [0, 0, 10, 10]) ⟨0, 0, 10, 10⟩ "within" 20200101 20200107

/-- Claim C10: every filter entry point leaves every table outside the ten
managed keys untouched — the `other` component of the store (pathways,
levels, fare_attributes, fare_rules, feed_info, translations, attributions,
...) is returned unchanged, rows and order alike, by all eight entry points,
whether the call completes or raises. -/
theorem c10_frame_other_tables (s : GTFSStore) (stop_ids shape_ids svc ag : List String)
    (fg : FilterGeometry) (op : String) (d1 d2 : Nat) :
    (filter_by_stop_ids s stop_ids).other = s.other ∧
    (filter_by_shape_ids s shape_ids).1.other = s.other ∧
    (filter_by_service_ids s svc).other = s.other ∧
    (filter_by_agency_ids s ag).1.other = s.other ∧
    (filter_by_calendar s d1 d2).1.other = s.other ∧
    (spatial_filter_by_stops s fg).1.other = s.other ∧
    (spatial_filter_by_stations s fg).1.other = s.other ∧
    (spatial_filter_by_shapes s fg op).1.other = s.other := by
  refine ⟨fbsi_other s stop_ids, ?_, fbsv_other s svc, fba_other s ag, ?_, ?_, ?_, ?_⟩
  · cases hsh : s.shapes with
    | none =>
      rw [fbshi_err s shape_ids hsh]
    | some sh => exact fbshi_other s sh shape_ids hsh
  · cases hcd : s.calendar_dates with
    | none =>
      rw [fbc_err_nocd s d1 d2 hcd]
    | some cd =>
      cases hcal : s.calendar with
      | none =>
        rw [fbc_err_nocal s cd d1 d2 hcd hcal]
      | some cal =>
        rw [fbc_eq s cd cal d1 d2 hcd hcal]
        exact fbsv_other _ _
  · cases hfg : normalizeGeometry fg with
    | error e => rw [sfbs_err s fg e hfg]
    | ok box =>
      rw [sfbs_eq s fg box hfg]
      exact fbsi_other _ _
  · cases hfg : normalizeGeometry fg with
    | error e => rw [sfbst_err s fg e hfg]
    | ok box =>
      rw [sfbst_eq s fg box hfg]
      exact fbsi_other _ _
  · cases hfg : normalizeGeometry fg with
    | error e => rw [sfbsh_err_geom s fg op e hfg]
    | ok box =>
      cases hsh : s.shapes with
      | none => rw [sfbsh_err_noshapes s fg box op hfg hsh]
      | some sh =>
        by_cases hop : op = "within" ∨ op = "intersects"
        · rw [sfbsh_eq s fg box sh op hfg hsh hop]
          exact fbshi_other s sh _ hsh
        · rw [sfbsh_err_op s fg box sh op hfg hsh hop]

/-- Claim C3, counterexample: filtering `csTransfer` by shape SH retains both
stops S and P (P via station closure), so both endpoints of the transfer
(P, S) are in the retained stop set, yet the transfer row is dropped — the
transfers mask tests the pre-closure seed, not the retained stop set. -/
theorem c3_transfer_closure_stop_dropped :
    RefClosedCore csTransfer ∧
    "P" ∈ ((filter_by_shape_ids csTransfer ["SH"]).1.stops.map (fun r => r.stop_id)) ∧
    "S" ∈ ((filter_by_shape_ids csTransfer ["SH"]).1.stops.map (fun r => r.stop_id)) ∧
    (⟨"P", "S"⟩ : TransferRow) ∈ csTransfer.transfers.getD [] ∧
    (filter_by_shape_ids csTransfer ["SH"]).1.transfers = some [] := by
  refine ⟨by decide, by decide, by decide, by decide, by decide⟩

/-- Claim C3 (amended): a transfers row survives iff both endpoints lie in
the seed stop-id set used at the transfers step — the argument `stop_ids` for
`filter_by_stop_ids`, and the stop_id values of the already-filtered
stop_times for the shape- and service-based cascades; stops retained only via
station closure do not admit transfers.  For `filter_by_stop_ids` on a store
whose transfers are referentially closed, this coincides with the claimed
retained-stop-set semantics, since that entry point applies no closure. -/
theorem c3_transfers_seed_semantics_amended (s : GTFSStore)
    (stop_ids shape_ids svc : List String) (sh : List ShapeRow)
    (hsh : s.shapes = some sh) (hs7 : transfersClosed s) :
    (filter_by_stop_ids s stop_ids).transfers =
      s.transfers.map (fun tr => tr.filter
        (fun t => isin t.from_stop_id stop_ids && isin t.to_stop_id stop_ids)) ∧
    (filter_by_shape_ids s shape_ids).1.transfers =
      s.transfers.map (fun tr => tr.filter
        (fun t => isin t.from_stop_id
            ((filter_by_shape_ids s shape_ids).1.stop_times.map (fun x => x.stop_id)) &&
          isin t.to_stop_id
            ((filter_by_shape_ids s shape_ids).1.stop_times.map (fun x => x.stop_id)))) ∧
    (filter_by_service_ids s svc).transfers =
      s.transfers.map (fun tr => tr.filter
        (fun t => isin t.from_stop_id
            ((filter_by_service_ids s svc).stop_times.map (fun x => x.stop_id)) &&
          isin t.to_stop_id
            ((filter_by_service_ids s svc).stop_times.map (fun x => x.stop_id)))) ∧
    (filter_by_stop_ids s stop_ids).transfers.getD [] =
      (s.transfers.getD []).filter (fun t =>
        decide (t.from_stop_id ∈
            ((filter_by_stop_ids s stop_ids).stops.map (fun r => r.stop_id))) &&
        decide (t.to_stop_id ∈
            ((filter_by_stop_ids s stop_ids).stops.map (fun r => r.stop_id)))) := by
  refine ⟨fbsi_transfers s stop_ids, fbshi_transfers s sh shape_ids hsh,
    fbsv_transfers s svc, ?_⟩
  rw [fbsi_transfers, getD_map_filter]
  apply List.filter_congr
  intro t ht
  obtain ⟨hfm, htm⟩ := hs7 t ht
  have e1 : (t.from_stop_id ∈
      ((filter_by_stop_ids s stop_ids).stops.map (fun r => r.stop_id))) ↔
      t.from_stop_id ∈ stop_ids := by
    rw [fbsi_stops, mem_map_filter_isin]
    constructor
    · rintro ⟨_, hm⟩
      exact hm
    · intro hm
      exact ⟨hfm, hm⟩
  have e2 : (t.to_stop_id ∈
      ((filter_by_stop_ids s stop_ids).stops.map (fun r => r.stop_id))) ↔
      t.to_stop_id ∈ stop_ids := by
    rw [fbsi_stops, mem_map_filter_isin]
    constructor
    · rintro ⟨_, hm⟩
      exact hm
    · intro hm
      exact ⟨htm, hm⟩
  show (isin t.from_stop_id stop_ids && isin t.to_stop_id stop_ids) = _
  unfold isin
  congr 1
  · exact decide_eq_decide.mpr e1.symm
  · exact decide_eq_decide.mpr e2.symm

/-- Claim C3, witness: the seed-set transfer semantics evaluated on the
concrete feed `csTransfer`. -/
theorem c3_witness :
    (filter_by_stop_ids csTransfer ["S", "P"]).transfers =
      csTransfer.transfers.map (fun tr => tr.filter
        (fun t => isin t.from_stop_id ["S", "P"] && isin t.to_stop_id ["S", "P"])) ∧
    (filter_by_shape_ids csTransfer ["SH"]).1.transfers =
      csTransfer.transfers.map (fun tr => tr.filter
        (fun t => isin t.from_stop_id
            ((filter_by_shape_ids csTransfer ["SH"]).1.stop_times.map (fun x => x.stop_id)) &&
          isin t.to_stop_id
            ((filter_by_shape_ids csTransfer ["SH"]).1.stop_times.map (fun x => x.stop_id)))) ∧
    (filter_by_service_ids csTransfer ["SV"]).transfers =
      csTransfer.transfers.map (fun tr => tr.filter
        (fun t => isin t.from_stop_id
            ((filter_by_service_ids csTransfer ["SV"]).stop_times.map (fun x => x.stop_id)) &&
          isin t.to_stop_id
            ((filter_by_service_ids csTransfer ["SV"]).stop_times.map (fun x => x.stop_id)))) ∧
    (filter_by_stop_ids csTransfer ["S", "P"]).transfers.getD [] =
      (csTransfer.transfers.getD []).filter (fun t =>
        decide (t.from_stop_id ∈
            ((filter_by_stop_ids csTransfer ["S", "P"]).stops.map (fun r => r.stop_id))) &&
        decide (t.to_stop_id ∈
            ((filter_by_stop_ids csTransfer ["S", "P"]).stops.map (fun r => r.stop_id)))) :=
  c3_transfers_seed_semantics_amended csTransfer ["S", "P"] ["SH"] ["SV"]
    [⟨"SH", 0, 0, 1⟩] rfl (by decide)

/-- Claim C9, counterexample: on `csShapeOutside`, whose shape SH lies wholly
outside the box [0,0,10,10] while its trip's stop lies inside,
`spatial_filter_by_stops` completes and retains both SH shape points even
though every one of them fails the point-in-geometry test — there is no
position-level prune, contradicting the claimed intersection semantics. -/
theorem c9_no_pointwise_shape_prune :
    (spatial_filter_by_stops csShapeOutside (FilterGeometry.boundsList [0, 0, 10, 10])).2 = none ∧
    (spatial_filter_by_stops csShapeOutside (FilterGeometry.boundsList [0, 0, 10, 10])).1.shapes =
      some [⟨"SH", 20, 20, 1⟩, ⟨"SH", 21, 21, 2⟩] ∧
    pointInBox ⟨0, 0, 10, 10⟩ 20 20 = false ∧
    pointInBox ⟨0, 0, 10, 10⟩ 21 21 = false := by
  refine ⟨by decide, by decide, by decide, by decide⟩

/-- Claim C9 (amended): `spatial_filter_by_stops` delegates entirely to
`filter_by_stop_ids` seeded with the stops intersecting the geometry, and its
shapes table is pruned solely by shape_id membership in the retained trips'
shape ids; no per-point spatial test is applied to shape points. -/
theorem c9_shapes_pruned_by_shape_id_only (s : GTFSStore) (fg : FilterGeometry)
    (box : Box) (hfg : normalizeGeometry fg = Except.ok box) :
    spatial_filter_by_stops s fg =
      (filter_by_stop_ids s
        ((s.stops.filter (fun r => pointInBox box r.lon r.lat)).map (fun r => r.stop_id)),
       none) ∧
    (spatial_filter_by_stops s fg).1.shapes =
      s.shapes.map (fun sh => sh.filter (fun r => isinOptVals r.shape_id
        ((spatial_filter_by_stops s fg).1.trips.map (fun t => t.shape_id)))) := by
  refine ⟨sfbs_eq s fg box hfg, ?_⟩
  rw [sfbs_eq s fg box hfg]
  exact fbsi_shapes _ _

/-- Claim C9, witness: the shape-id-only pruning evaluated on
`csShapeOutside` with the box [0,0,10,10]. -/
theorem c9_witness :
    spatial_filter_by_stops csShapeOutside (FilterGeometry.boundsList [0, 0, 10, 10]) =
      (filter_by_stop_ids csShapeOutside
        ((csShapeOutside.stops.filter
            (fun r => pointInBox ⟨0, 0, 10, 10⟩ r.lon r.lat)).map (fun r => r.stop_id)),
       none) ∧
    (spatial_filter_by_stops csShapeOutside (FilterGeometry.boundsList [0, 0, 10, 10])).1.shapes =
      csShapeOutside.shapes.map (fun sh => sh.filter (fun r => isinOptVals r.shape_id
        ((spatial_filter_by_stops csShapeOutside
            (FilterGeometry.boundsList [0, 0, 10, 10])).1.trips.map (fun t => t.shape_id)))) :=
  c9_shapes_pruned_by_shape_id_only csShapeOutside
    (FilterGeometry.boundsList [0, 0, 10, 10]) ⟨0, 0, 10, 10⟩ rfl

/-- Membership in the two-pass station closure: an id is in the closure iff it
is in the seed, or is the parent station of a row whose id is in the seed, or
is a row whose parent station lies in the seed or among those parents. -/
lemma stationClosure_mem_iff (stops : List StopRow) (seed : List String) (x : String) :
    x ∈ stationClosure stops seed ↔
      (x ∈ seed ∨ ∃ a, (a ∈ stops ∧ a.stop_id ∈ seed) ∧ a.parent_station = some x) ∨
      ∃ a, (a ∈ stops ∧ ∃ p, a.parent_station = some p ∧
          (p ∈ seed ∨ ∃ r, (r ∈ stops ∧ r.stop_id ∈ seed) ∧ r.parent_station = some p)) ∧
        a.stop_id = x := by
  simp only [stationClosure, npUnique, List.mem_dedup, List.mem_append, List.mem_filterMap,
    List.mem_filter, List.mem_map, optIsin_iff, isin_iff, decide_eq_true_eq]

/-- Claim C4, counterexample: on the three-level stops table C → B → A,
applying the closure to its own result adds the grandparent A that a single
application misses — the computation is a fixed two-pass, not a fixed point,
so it is not idempotent on tables nested deeper than two levels. -/
theorem c4_deep_nesting_not_idempotent :
    "A" ∈ stationClosure stopsDeep (stationClosure stopsDeep ["C"]) ∧
    "A" ∉ stationClosure stopsDeep ["C"] ∧
    ¬ sameElems (stationClosure stopsDeep (stationClosure stopsDeep ["C"]))
        (stationClosure stopsDeep ["C"]) := by
  refine ⟨by decide, by decide, fun hs => absurd ((hs "A").mp (by decide)) (by decide)⟩

/-- Claim C4 (amended): the station-closure computation is idempotent on every
stops table whose `stop_id` values are unique (the GTFS primary key) and whose
parent_station nesting is at most two levels — no stop named as a parent
station itself carries a parent station.  For deeper nesting a second
application can add grandparents (see the counterexample). -/
theorem c4_station_closure_idempotent_two_level (stops : List StopRow) (seed : List String)
    (hnd : (stops.map (fun r => r.stop_id)).Nodup) (h : TwoLevel stops) :
    sameElems (stationClosure stops (stationClosure stops seed))
      (stationClosure stops seed) := by
  have hinj : ∀ a ∈ stops, ∀ b ∈ stops, a.stop_id = b.stop_id → a = b :=
    fun a ha b hb hab => List.inj_on_of_nodup_map hnd ha hb hab
  intro x
  constructor
  · intro hx
    rw [stationClosure_mem_iff] at hx
    rcases hx with (hx | hx) | hx
    · exact hx
    · obtain ⟨a, ⟨ha, has⟩, hap⟩ := hx
      rw [stationClosure_mem_iff] at has
      rcases has with (h1 | h1) | h1
      · rw [stationClosure_mem_iff]
        exact Or.inl (Or.inr ⟨a, ⟨ha, h1⟩, hap⟩)
      · obtain ⟨r, ⟨hr, hrs⟩, hrp⟩ := h1
        have hnone := h r hr a ha hrp
        rw [hnone] at hap
        cases hap
      · obtain ⟨c, ⟨hc, p, hcp, hp⟩, hcx⟩ := h1
        have hac : a = c := hinj a ha c hc (by rw [hcx])
        rw [hac, hcp] at hap
        have hpx := Option.some.inj hap
        subst hpx
        rw [stationClosure_mem_iff]
        exact Or.inl hp
    · obtain ⟨c, ⟨hc, p, hcp, hp⟩, hcx⟩ := hx
      rcases hp with hp | hp
      · rw [stationClosure_mem_iff] at hp
        rcases hp with (h1 | h1) | h1
        · rw [stationClosure_mem_iff]
          exact Or.inr ⟨c, ⟨hc, p, hcp, Or.inl h1⟩, hcx⟩
        · rw [stationClosure_mem_iff]
          exact Or.inr ⟨c, ⟨hc, p, hcp, Or.inr h1⟩, hcx⟩
        · obtain ⟨d, ⟨hd, q, hdq, _⟩, hdx⟩ := h1
          have h0 : c.parent_station = some d.stop_id := by rw [hcp, hdx]
          have hnone := h c hc d hd h0
          rw [hnone] at hdq
          cases hdq
      · obtain ⟨r, ⟨hr, hrs⟩, hrp⟩ := hp
        rw [stationClosure_mem_iff] at hrs
        rcases hrs with (h1 | h1) | h1
        · rw [stationClosure_mem_iff]
          exact Or.inr ⟨c, ⟨hc, p, hcp, Or.inr ⟨r, ⟨hr, h1⟩, hrp⟩⟩, hcx⟩
        · obtain ⟨r2, ⟨hr2, hr2s⟩, hr2p⟩ := h1
          have hnone := h r2 hr2 r hr hr2p
          rw [hnone] at hrp
          cases hrp
        · obtain ⟨d, ⟨hd, q, hdq, hq⟩, hdx⟩ := h1
          have hrd : r = d := hinj r hr d hd hdx.symm
          rw [hrd, hdq] at hrp
          have hqp := Option.some.inj hrp
          subst hqp
          rw [stationClosure_mem_iff]
          exact Or.inr ⟨c, ⟨hc, q, hcp, hq⟩, hcx⟩
  · intro hx
    rw [stationClosure_mem_iff]
    exact Or.inl (Or.inl hx)

/-- Claim C4, witness: idempotence evaluated on the two-level stops table of
`wsFull` seeded with the child stop S1. -/
theorem c4_witness :
    sameElems (stationClosure wsFull.stops (stationClosure wsFull.stops ["S1"]))
      (stationClosure wsFull.stops ["S1"]) :=
  c4_station_closure_idempotent_two_level wsFull.stops ["S1"] (by decide) (by decide)

/-!
Helpers for the reconciliation claims.
-/

lemma dummyFor_service (cd : List CalendarDateRow) (sid : String) :
    (dummyFor cd sid).service_id = sid := by
  unfold dummyFor
  cases (cd.filter (fun r => r.service_id == sid)).head? <;> rfl

lemma filter_of_map {α β : Type} (f : α → β) (p : β → Bool) (l : List α) :
    (l.map f).filter p = (l.filter (fun x => p (f x))).map f := by
  induction l with
  | nil => rfl
  | cons a rest ih =>
    simp only [List.map_cons, List.filter_cons]
    cases p (f a) <;> simp [ih]

lemma nodup_filter_beq_length {l : List String} {a : String}
    (hnd : l.Nodup) (ha : a ∈ l) :
    (l.filter (fun x => x == a)).length = 1 := by
  rw [← List.countP_eq_length_filter]
  have : l.countP (fun x => x == a) = l.count a := rfl
  rw [this]
  exact List.count_eq_one_of_mem hnd ha

lemma missing_nodup (cdSids calSids : List String) :
    (missingServiceIds cdSids calSids).Nodup := by
  unfold missingServiceIds npUnique
  exact List.nodup_dedup _

/-- Claim C5: after a successful `filter_by_calendar`, the retained
calendar_dates table is the date-masked one and the retained calendar is the
reconciled one; every service_id of a retained calendar_dates row appears in
the retained calendar, and the synthesized block contains exactly one row per
service_id that is present in the masked calendar_dates but absent from the
masked calendar, each with all seven weekday flags zero and start_date =
end_date = the date of a retained calendar_dates row with that service_id. -/
theorem c5_calendar_reconciliation (s : GTFSStore) (cd : List CalendarDateRow)
    (cal : List CalendarRow) (d1 d2 : Nat)
    (hcd : s.calendar_dates = some cd) (hcal : s.calendar = some cal) :
    (filter_by_calendar s d1 d2).1.calendar_dates = some (dateMaskCd cd d1 d2) ∧
    (filter_by_calendar s d1 d2).1.calendar =
      some (calendarAfterFill (dateMaskCd cd d1 d2) (dateMaskCal cal d1 d2)) ∧
    (∀ row ∈ dateMaskCd cd d1 d2,
      row.service_id ∈
        (calendarAfterFill (dateMaskCd cd d1 d2) (dateMaskCal cal d1 d2)).map
          (fun r => r.service_id)) ∧
    (∀ sid ∈ missingServiceIds ((dateMaskCd cd d1 d2).map (fun r => r.service_id))
        ((dateMaskCal cal d1 d2).map (fun r => r.service_id)),
      (((missingServiceIds ((dateMaskCd cd d1 d2).map (fun r => r.service_id))
            ((dateMaskCal cal d1 d2).map (fun r => r.service_id))).reverse.map
          (dummyFor (dateMaskCd cd d1 d2))).filter
            (fun c => c.service_id == sid)).length = 1) ∧
    (∀ row ∈ (missingServiceIds ((dateMaskCd cd d1 d2).map (fun r => r.service_id))
        ((dateMaskCal cal d1 d2).map (fun r => r.service_id))).reverse.map
          (dummyFor (dateMaskCd cd d1 d2)),
      row.monday = 0 ∧ row.tuesday = 0 ∧ row.wednesday = 0 ∧ row.thursday = 0 ∧
      row.friday = 0 ∧ row.saturday = 0 ∧ row.sunday = 0 ∧
      ∃ cdrow ∈ dateMaskCd cd d1 d2, cdrow.service_id = row.service_id ∧
        row.start_date = cdrow.date ∧ row.end_date = cdrow.date) := by
  refine ⟨?_, ?_, ?_, ?_, ?_⟩
  · rw [fbc_eq s cd cal d1 d2 hcd hcal, fbsv_calendar_dates]
  · rw [fbc_eq s cd cal d1 d2 hcd hcal, fbsv_calendar]
  · intro row hrow
    unfold calendarAfterFill
    rw [List.map_append, List.mem_append]
    by_cases hmem : row.service_id ∈ (dateMaskCal cal d1 d2).map (fun r => r.service_id)
    · right
      exact hmem
    · left
      have hin : row.service_id ∈
          missingServiceIds ((dateMaskCd cd d1 d2).map (fun r => r.service_id))
            ((dateMaskCal cal d1 d2).map (fun r => r.service_id)) := by
        unfold missingServiceIds npUnique
        rw [List.mem_dedup, List.mem_filter]
        refine ⟨List.mem_map_of_mem _ hrow, ?_⟩
        simp [isin, hmem]
      rw [List.mem_map]
      exact ⟨dummyFor (dateMaskCd cd d1 d2) row.service_id,
        List.mem_map_of_mem _ (List.mem_reverse.mpr hin), dummyFor_service _ _⟩
  · intro sid hsid
    rw [filter_of_map, List.length_map]
    rw [List.filter_congr (fun x _ => by rw [dummyFor_service] :
      ∀ x ∈ (missingServiceIds ((dateMaskCd cd d1 d2).map (fun r => r.service_id))
        ((dateMaskCal cal d1 d2).map (fun r => r.service_id))).reverse,
        ((dummyFor (dateMaskCd cd d1 d2) x).service_id == sid) = (x == sid))]
    exact nodup_filter_beq_length (List.nodup_reverse.mpr (missing_nodup _ _))
      (List.mem_reverse.mpr hsid)
  · intro row hrow
    obtain ⟨sid, hsid, hrow2⟩ := List.mem_map.mp hrow
    have hsid2 : sid ∈ missingServiceIds ((dateMaskCd cd d1 d2).map (fun r => r.service_id))
        ((dateMaskCal cal d1 d2).map (fun r => r.service_id)) := List.mem_reverse.mp hsid
    have hcds : sid ∈ (dateMaskCd cd d1 d2).map (fun r => r.service_id) :=
      (missing_sub _ _ sid hsid2).1
    cases hf : (dateMaskCd cd d1 d2).filter (fun r => r.service_id == sid) with
    | nil => exact absurd hf (filter_ne_nil_of_mem_map hcds)
    | cons r0 rest =>
      have hh : ((dateMaskCd cd d1 d2).filter (fun r => r.service_id == sid)).head? =
          some r0 := by
        rw [hf]
        rfl
      have hd : dummyFor (dateMaskCd cd d1 d2) sid = mkDummy sid r0.date := by
        unfold dummyFor
        rw [hh]
      have hr0m : r0 ∈ (dateMaskCd cd d1 d2).filter (fun r => r.service_id == sid) := by
        rw [hf]
        exact List.mem_cons_self r0 rest
      obtain ⟨hr0cd, hr0s⟩ := List.mem_filter.mp hr0m
      rw [← hrow2, hd]
      exact ⟨rfl, rfl, rfl, rfl, rfl, rfl, rfl,
        ⟨r0, hr0cd, eq_of_beq hr0s, rfl, rfl⟩⟩

/-- Claim C5, witness: reconciliation evaluated on `wsFull` over the week
2020-01-01 .. 2020-01-07, where SV2 is exception-only. -/
theorem c5_witness :
    (filter_by_calendar wsFull 20200101 20200107).1.calendar_dates =
      some (dateMaskCd [⟨"SV2", 20200103⟩] 20200101 20200107) ∧
    (filter_by_calendar wsFull 20200101 20200107).1.calendar =
      some (calendarAfterFill (dateMaskCd [⟨"SV2", 20200103⟩] 20200101 20200107)
        (dateMaskCal [⟨"SV1", 1, 1, 1, 1, 1, 0, 0, 20200101, 20201231⟩] 20200101 20200107)) ∧
    (∀ row ∈ dateMaskCd [⟨"SV2", 20200103⟩] 20200101 20200107,
      row.service_id ∈
        (calendarAfterFill (dateMaskCd [⟨"SV2", 20200103⟩] 20200101 20200107)
          (dateMaskCal [⟨"SV1", 1, 1, 1, 1, 1, 0, 0, 20200101, 20201231⟩] 20200101
            20200107)).map (fun r => r.service_id)) ∧
    (∀ sid ∈ missingServiceIds
        ((dateMaskCd [⟨"SV2", 20200103⟩] 20200101 20200107).map (fun r => r.service_id))
        ((dateMaskCal [⟨"SV1", 1, 1, 1, 1, 1, 0, 0, 20200101, 20201231⟩] 20200101
          20200107).map (fun r => r.service_id)),
      (((missingServiceIds
            ((dateMaskCd [⟨"SV2", 20200103⟩] 20200101 20200107).map (fun r => r.service_id))
            ((dateMaskCal [⟨"SV1", 1, 1, 1, 1, 1, 0, 0, 20200101, 20201231⟩] 20200101
              20200107).map (fun r => r.service_id))).reverse.map
          (dummyFor (dateMaskCd [⟨"SV2", 20200103⟩] 20200101 20200107))).filter
            (fun c => c.service_id == sid)).length = 1) ∧
    (∀ row ∈ (missingServiceIds
        ((dateMaskCd [⟨"SV2", 20200103⟩] 20200101 20200107).map (fun r => r.service_id))
        ((dateMaskCal [⟨"SV1", 1, 1, 1, 1, 1, 0, 0, 20200101, 20201231⟩] 20200101
          20200107).map (fun r => r.service_id))).reverse.map
          (dummyFor (dateMaskCd [⟨"SV2", 20200103⟩] 20200101 20200107)),
      row.monday = 0 ∧ row.tuesday = 0 ∧ row.wednesday = 0 ∧ row.thursday = 0 ∧
      row.friday = 0 ∧ row.saturday = 0 ∧ row.sunday = 0 ∧
      ∃ cdrow ∈ dateMaskCd [⟨"SV2", 20200103⟩] 20200101 20200107,
        cdrow.service_id = row.service_id ∧
        row.start_date = cdrow.date ∧ row.end_date = cdrow.date) :=
  c5_calendar_reconciliation wsFull [⟨"SV2", 20200103⟩]
    [⟨"SV1", 1, 1, 1, 1, 1, 0, 0, 20200101, 20201231⟩] 20200101 20200107 rfl rfl

/-!
Row-count monotonicity helpers.
-/

lemma optLen_le {α : Type} (o : Option (List α)) (p : α → Bool) :
    ((o.map (fun l => l.filter p)).getD []).length ≤ (o.getD []).length := by
  rw [getD_map_filter]
  exact List.length_filter_le _ _

lemma fbsi_tablesLe (s : GTFSStore) (ids : List String) :
    tablesLe (filter_by_stop_ids s ids) s := by
  refine ⟨?_, ?_, ?_, ?_, ?_, ?_, ?_, ?_, ?_, ?_⟩
  · rw [fbsi_agency]
    exact List.length_filter_le _ _
  · rw [fbsi_stops]
    exact List.length_filter_le _ _
  · rw [fbsi_routes]
    exact List.length_filter_le _ _
  · rw [fbsi_trips]
    exact List.length_filter_le _ _
  · rw [fbsi_stop_times]
    exact List.length_filter_le _ _
  · rw [fbsi_shapes]
    exact optLen_le _ _
  · rw [fbsi_calendar]
    exact optLen_le _ _
  · rw [fbsi_calendar_dates]
    exact optLen_le _ _
  · rw [fbsi_frequencies]
    exact optLen_le _ _
  · rw [fbsi_transfers]
    exact optLen_le _ _

lemma fbshi_tablesLe (s : GTFSStore) (sh : List ShapeRow) (ids : List String)
    (hsh : s.shapes = some sh) : tablesLe (filter_by_shape_ids s ids).1 s := by
  refine ⟨?_, ?_, ?_, ?_, ?_, ?_, ?_, ?_, ?_, ?_⟩
  · rw [fbshi_agency s sh ids hsh]
    exact List.length_filter_le _ _
  · rw [fbshi_stops s sh ids hsh]
    exact List.length_filter_le _ _
  · rw [fbshi_routes s sh ids hsh]
    exact List.length_filter_le _ _
  · rw [fbshi_trips s sh ids hsh]
    exact List.length_filter_le _ _
  · rw [fbshi_stop_times s sh ids hsh]
    exact List.length_filter_le _ _
  · rw [fbshi_shapes s sh ids hsh, hsh]
    exact List.length_filter_le _ _
  · rw [fbshi_calendar s sh ids hsh]
    exact optLen_le _ _
  · rw [fbshi_calendar_dates s sh ids hsh]
    exact optLen_le _ _
  · rw [fbshi_frequencies s sh ids hsh]
    exact optLen_le _ _
  · rw [fbshi_transfers s sh ids hsh]
    exact optLen_le _ _

lemma fbsv_tablesLe (s : GTFSStore) (svc : List String) :
    tablesLe (filter_by_service_ids s svc) s := by
  refine ⟨?_, ?_, ?_, ?_, ?_, ?_, ?_, ?_, ?_, ?_⟩
  · rw [fbsv_agency]
    exact List.length_filter_le _ _
  · rw [fbsv_stops]
    exact List.length_filter_le _ _
  · rw [fbsv_routes]
    exact List.length_filter_le _ _
  · rw [fbsv_trips]
    exact List.length_filter_le _ _
  · rw [fbsv_stop_times]
    exact List.length_filter_le _ _
  · rw [fbsv_shapes]
    exact optLen_le _ _
  · rw [fbsv_calendar]
  · rw [fbsv_calendar_dates]
  · rw [fbsv_frequencies]
    exact optLen_le _ _
  · rw [fbsv_transfers]
    exact optLen_le _ _

/-- Claim C6: no filter entry point increases any real table's row count; the
single exception is the calendar table under the by-date-range entry point,
whose final row count equals its post-mask count plus exactly the number of
synthesized placeholder rows (one per service id present in the masked
calendar_dates but absent from the masked calendar). -/
theorem c6_monotonicity (s : GTFSStore) (stop_ids shape_ids svc ag : List String)
    (fg : FilterGeometry) (op : String) (d1 d2 : Nat) :
    tablesLe (filter_by_stop_ids s stop_ids) s ∧
    ((filter_by_shape_ids s shape_ids).2 = none →
      tablesLe (filter_by_shape_ids s shape_ids).1 s) ∧
    tablesLe (filter_by_service_ids s svc) s ∧
    ((filter_by_agency_ids s ag).2 = none → tablesLe (filter_by_agency_ids s ag).1 s) ∧
    ((filter_by_calendar s d1 d2).2 = none →
      tablesLeExceptCalendar (filter_by_calendar s d1 d2).1 s ∧
      ((filter_by_calendar s d1 d2).1.calendar.getD []).length =
        (dateMaskCal (s.calendar.getD []) d1 d2).length +
          (missingServiceIds
            ((dateMaskCd (s.calendar_dates.getD []) d1 d2).map (fun r => r.service_id))
            ((dateMaskCal (s.calendar.getD []) d1 d2).map (fun r => r.service_id))).length) ∧
    ((spatial_filter_by_stops s fg).2 = none → tablesLe (spatial_filter_by_stops s fg).1 s) ∧
    ((spatial_filter_by_stations s fg).2 = none →
      tablesLe (spatial_filter_by_stations s fg).1 s) ∧
    ((spatial_filter_by_shapes s fg op).2 = none →
      tablesLe (spatial_filter_by_shapes s fg op).1 s) := by
  refine ⟨fbsi_tablesLe s stop_ids, ?_, fbsv_tablesLe s svc, ?_, ?_, ?_, ?_, ?_⟩
  · intro h
    cases hsh : s.shapes with
    | none =>
      rw [fbshi_err s shape_ids hsh] at h
      simp at h
    | some sh => exact fbshi_tablesLe s sh shape_ids hsh
  · intro h
    rw [fba_snd] at h
    simp at h
  · intro h
    cases hcd : s.calendar_dates with
    | none =>
      rw [fbc_err_nocd s d1 d2 hcd] at h
      simp at h
    | some cd =>
      cases hcal : s.calendar with
      | none =>
        rw [fbc_err_nocal s cd d1 d2 hcd hcal] at h
        simp at h
      | some cal =>
        rw [fbc_eq s cd cal d1 d2 hcd hcal]
        constructor
        · refine ⟨?_, ?_, ?_, ?_, ?_, ?_, ?_, ?_, ?_⟩
          · rw [fbsv_agency]
            exact List.length_filter_le _ _
          · rw [fbsv_stops]
            exact List.length_filter_le _ _
          · rw [fbsv_routes]
            exact List.length_filter_le _ _
          · rw [fbsv_trips]
            exact List.length_filter_le _ _
          · rw [fbsv_stop_times]
            exact List.length_filter_le _ _
          · rw [fbsv_shapes]
            exact optLen_le _ _
          · rw [fbsv_calendar_dates]
            show (dateMaskCd cd d1 d2).length ≤ (s.calendar_dates.getD []).length
            rw [hcd]
            exact List.length_filter_le _ _
          · rw [fbsv_frequencies]
            exact optLen_le _ _
          · rw [fbsv_transfers]
            exact optLen_le _ _
        · rw [fbsv_calendar]
          show (calendarAfterFill (dateMaskCd cd d1 d2) (dateMaskCal cal d1 d2)).length = _
          unfold calendarAfterFill
          simp only [List.length_append, List.length_map, List.length_reverse, hcd, hcal,
            Option.getD_some]
          exact Nat.add_comm _ _
  · intro h
    cases hfg : normalizeGeometry fg with
    | error e =>
      rw [sfbs_err s fg e hfg] at h
      simp at h
    | ok box =>
      rw [sfbs_eq s fg box hfg]
      exact fbsi_tablesLe s _
  · intro h
    cases hfg : normalizeGeometry fg with
    | error e =>
      rw [sfbst_err s fg e hfg] at h
      simp at h
    | ok box =>
      rw [sfbst_eq s fg box hfg]
      exact fbsi_tablesLe s _
  · intro h
    cases hfg : normalizeGeometry fg with
    | error e =>
      rw [sfbsh_err_geom s fg op e hfg] at h
      simp at h
    | ok box =>
      cases hsh : s.shapes with
      | none =>
        rw [sfbsh_err_noshapes s fg box op hfg hsh] at h
        simp at h
      | some sh =>
        by_cases hop : op = "within" ∨ op = "intersects"
        · rw [sfbsh_eq s fg box sh op hfg hsh hop]
          exact fbshi_tablesLe s sh _ hsh
        · rw [sfbsh_err_op s fg box sh op hfg hsh hop] at h
          simp at h

/-- Claim C6, witness: monotonicity evaluated on `wsFull` with each entry
point's seed, the box [0,0,10,10] and the week 2020-01-01 .. 2020-01-07. -/
theorem c6_witness :
    tablesLe (filter_by_stop_ids wsFull ["S1"]) wsFull ∧
    ((filter_by_shape_ids wsFull ["SH1"]).2 = none →
      tablesLe (filter_by_shape_ids wsFull ["SH1"]).1 wsFull) ∧
    tablesLe (filter_by_service_ids wsFull ["SV1"]) wsFull ∧
    ((filter_by_agency_ids wsFull ["A1"]).2 = none →
      tablesLe (filter_by_agency_ids wsFull ["A1"]).1 wsFull) ∧
    ((filter_by_calendar wsFull 20200101 20200107).2 = none →
      tablesLeExceptCalendar (filter_by_calendar wsFull 20200101 20200107).1 wsFull ∧
      ((filter_by_calendar wsFull 20200101 20200107).1.calendar.getD []).length =
        (dateMaskCal (wsFull.calendar.getD []) 20200101 20200107).length +
          (missingServiceIds
            ((dateMaskCd (wsFull.calendar_dates.getD []) 20200101 20200107).map
              (fun r => r.service_id))
            ((dateMaskCal (wsFull.calendar.getD []) 20200101 20200107).map
              (fun r => r.service_id))).length) ∧
    ((spatial_filter_by_stops wsFull (FilterGeometry.boundsList [0, 0, 10, 10])).2 = none →
      tablesLe (spatial_filter_by_stops wsFull (FilterGeometry.boundsList [0, 0, 10, 10])).1
        wsFull) ∧
    ((spatial_filter_by_stations wsFull (FilterGeometry.boundsList [0, 0, 10, 10])).2 = none →
      tablesLe (spatial_filter_by_stations wsFull
        (FilterGeometry.boundsList [0, 0, 10, 10])).1 wsFull) ∧
    ((spatial_filter_by_shapes wsFull (FilterGeometry.boundsList [0, 0, 10, 10]) "within").2 =
        none →
      tablesLe (spatial_filter_by_shapes wsFull
        (FilterGeometry.boundsList [0, 0, 10, 10]) "within").1 wsFull) :=
  c6_monotonicity wsFull ["S1"] ["SH1"] ["SV1"] ["A1"]
    (FilterGeometry.boundsList [0, 0, 10, 10]) "within" 20200101 20200107
